import Mathlib

/-!
# Pop dispatch layer (`Pop/Pop.cpp`)

A shallow embedding of the backend selector and the call dispatcher of
`Pop/Pop.cpp`.

* The process-wide selection `s_api` is a field of an explicit state.
* Everything outside the translation unit (the vendor libraries, the loaders,
  device memory and the caller's memory that out-pointers refer to) is an
  abstract world `W`; a native entry point is a transition of that world which
  also yields a status.
* Every native call that is issued is appended to a log, together with the
  status it returned, so that "which native functions were invoked" is a
  property of the final state.
* Enumerators, handles, sizes and pointers are integers: a C cast between two
  enumerations, two handle types or two pointer types keeps the numeric value.
-/

namespace Pop

/-! ## Data model -/

/-- Modelled from the spec: the backend enumeration `Api` of `Pop/Pop.h` (the header is
not part of the sources): the two supported backends, `API_AUTOMATIC`, and any
other value an object of the enumeration type may hold. -/
inductive Api where
  | API_AUTOMATIC
  | API_HIP
  | API_CUDA
  | other (v : Int)
deriving DecidableEq, Repr

/-- The library a native entry point belongs to; it is the prefix that the dispatch
preprocessor definitions paste in front of the function name (`cu##name`, `hip##name`, ...). -/
inductive Lib where
  | cu
  | cuda
  | nvrtc
  | hip
  | hiprtc
  | cuew
  | hipew
deriving DecidableEq, Repr

/-- An argument handed to a native entry point: a scalar (integer, enumerator,
handle or pointer) or an array passed by pointer whose elements matter. -/
inductive Arg where
  | int (v : Int)
  | arr (xs : List Int)
deriving DecidableEq, Repr

/-- One native call: library prefix, function name after the prefix, arguments in order. -/
structure NativeCall where
  lib : Lib
  name : String
  args : List Arg
deriving DecidableEq, Repr

/-- A logged native call together with the status it returned. -/
structure Event where
  call : NativeCall
  status : Int
deriving DecidableEq, Repr

/-- The CUDA-side libraries: driver API, runtime API and NVRTC. -/
def Lib.isCuda : Lib → Bool
  | .cu => true
  | .cuda => true
  | .nvrtc => true
  | _ => false

/-- The HIP-side libraries: HIP and HIPRTC. -/
def Lib.isHip : Lib → Bool
  | .hip => true
  | .hiprtc => true
  | _ => false

/-- Constants of the headers `Pop/Pop.h`, `cuew.h` and `hipew.h`, which are not part
of the sources; the functions below take them as a parameter. -/
structure Header where
  ppSuccess : Int
  ppErrorUnknown : Int
  PP_ERROR_OPEN_FAILED : Int
  PPRTC_SUCCESS : Int
  PPRTC_ERROR_INTERNAL_ERROR : Int
  CUDA_SUCCESS : Int
  CUEW_INIT_CUDA : Nat
  CUEW_INIT_NVRTC : Nat
  HIPEW_INIT_HIP : Nat
  CU_POINTER_ATTRIBUTE_MEMORY_TYPE : Int
deriving Repr

/-- A `char` buffer, one number per byte. -/
abbrev CharBuf := List Nat

/-- Modelled from the spec: the neutral device-property record `ppDeviceProp` of
`Pop/Pop.h`: the fields that the sources name, and `others` for the rest of the record. -/
structure ppDeviceProp where
  name : CharBuf
  gcnArchName : CharBuf
  totalGlobalMem : Nat
  maxThreadsDim : Fin 3 → Int
  maxGridSize : Fin 3 → Int
  maxThreadsPerBlock : Int
  major : Int
  multiProcessorCount : Int
  others : List Int

/-- Modelled from the spec: the CUDA property record `cudaDeviceProp` of `cuew.h`: the
fields that `ppGetDeviceProperties` reads, and `others` for the rest. -/
structure cudaDeviceProp where
  name : CharBuf
  totalGlobalMem : Nat
  maxThreadsDim : Fin 3 → Int
  maxGridSize : Fin 3 → Int
  maxThreadsPerBlock : Int
  others : List Int

/-- The HIP property record: `(hipDeviceProp_t*)props` reinterprets the caller's
record in place, so both are the same object. -/
abbrev hipDeviceProp_t := ppDeviceProp

/-- The native side. `call` is any entry point whose outputs the dispatch layer
never reads (its out-pointers are addresses into the world). The other fields are
the entry points whose output record or value is visible in `Pop.cpp`; `PA` is the
pointer-attribute record (`ppPointerAttribute`, reinterpreted as
`hipPointerAttribute_t`), whose declaration is not part of the sources. -/
structure Native (W PA : Type) where
  call : NativeCall → W → Int × W
  cudaGetDeviceProperties : Int → W → (Int × cudaDeviceProp) × W
  hipGetDeviceProperties : hipDeviceProp_t → Int → W → (Int × hipDeviceProp_t) × W
  cuPointerGetAttribute : Int → Int → W → (Int × Int) × W
  hipPointerGetAttributes : PA → Int → W → (Int × PA) × W

/-- The state: `s_api`, the world, and the log of native calls issued so far. -/
structure PopState (W : Type) where
  s_api : Api
  world : W
  trace : List Event

/-- A computation of the dispatch layer. -/
abbrev PopM (W α : Type) := PopState W → α × PopState W

/-- The state before any call: `static Api s_api = API_HIP;`. -/
def initialState {W : Type} (w : W) : PopState W :=
  { s_api := Api.API_HIP, world := w, trace := [] }

variable {W PA : Type}

/-- Issue a native call through `Native.call` and log it. -/
def callNative (N : Native W PA) (c : NativeCall) : PopM W Int := fun s =>
  let r := N.call c s.world
  (r.1, { s with world := r.2, trace := s.trace ++ [⟨c, r.1⟩] })

/-! ## Backend selector -/

/-- `int ppInitialize( Api api, ppU32 flags )`. -/
def ppInitialize (k : Header) (N : Native W PA) (api : Api) (_flags : Nat) : PopM W Int := fun s =>
  let s1 : PopState W := { s with s_api := api }
  if api = Api.API_CUDA then
    callNative N ⟨Lib.cuew, "Init", [Arg.int ((k.CUEW_INIT_CUDA ||| k.CUEW_INIT_NVRTC : Nat) : Int)]⟩ s1
  else if api = Api.API_HIP then
    callNative N ⟨Lib.hipew, "Init", [Arg.int (k.HIPEW_INIT_HIP : Int)]⟩ s1
  else
    (k.PP_ERROR_OPEN_FAILED, s1)

/-- `Api ppGetCurAPI(ppU32 flags)`. -/
def ppGetCurAPI (_flags : Nat) : PopM W Api := fun s =>
  (s.s_api, s)

/-! ## Result translation -/

/-- `ppError hip2pp( hipError_t a )`: `(ppError)a`. -/
def hip2pp (a : Int) : Int := a

/-- `ppError cu2pp( CUresult a )`: `(ppError)a`. -/
def cu2pp (a : Int) : Int := a

/-- `ppError cuda2pp(cudaError_t a)`: `(ppError)a`. -/
def cuda2pp (a : Int) : Int := a

/-- `CUcontext* ppCtx2cu( ppCtx* a )`: `(CUcontext*)a`. -/
def ppCtx2cu (a : Int) : Int := a

/-- `hipCtx_t* ppCtx2hip( ppCtx* a )`: `(hipCtx_t*)a`. -/
def ppCtx2hip (a : Int) : Int := a

/-- `pprtcResult hiprtc2pp( hiprtcResult a )`: `(pprtcResult)a`. -/
def hiprtc2pp (a : Int) : Int := a

/-- `pprtcResult nvrtc2pp( nvrtcResult a )`: `(pprtcResult)a`. -/
def nvrtc2pp (a : Int) : Int := a

/-! ## The dispatch preprocessor definitions

Each one expands to two guarded `return` statements; `rest` is what follows the
expansion in the function body. A call expression `name(args)` is the pair of the
name and the argument list. -/

/-- `__PP_FUNC1( cuname, hipname )`. -/
def __PP_FUNC1 (N : Native W PA) (cuname hipname : String × List Arg) (rest : PopM W Int) :
    PopM W Int := fun s =>
  if s.s_api = Api.API_CUDA then
    let r := callNative N ⟨Lib.cu, cuname.1, cuname.2⟩ s
    (cu2pp r.1, r.2)
  else if s.s_api = Api.API_HIP then
    let r := callNative N ⟨Lib.hip, hipname.1, hipname.2⟩ s
    (hip2pp r.1, r.2)
  else rest s

/-- `__PP_FUNC2( cudaname, hipname )`. -/
def __PP_FUNC2 (N : Native W PA) (cudaname hipname : String × List Arg) (rest : PopM W Int) :
    PopM W Int := fun s =>
  if s.s_api = Api.API_CUDA then
    let r := callNative N ⟨Lib.cuda, cudaname.1, cudaname.2⟩ s
    (cuda2pp r.1, r.2)
  else if s.s_api = Api.API_HIP then
    let r := callNative N ⟨Lib.hip, hipname.1, hipname.2⟩ s
    (hip2pp r.1, r.2)
  else rest s

/-- `__PP_FUNC( name )`. -/
def __PP_FUNC (N : Native W PA) (name : String × List Arg) (rest : PopM W Int) :
    PopM W Int := fun s =>
  if s.s_api = Api.API_CUDA then
    let r := callNative N ⟨Lib.cu, name.1, name.2⟩ s
    (cu2pp r.1, r.2)
  else if s.s_api = Api.API_HIP then
    let r := callNative N ⟨Lib.hip, name.1, name.2⟩ s
    (hip2pp r.1, r.2)
  else rest s

/-- `__PP_CTXT_FUNC( name )`, which is `__PP_FUNC1(Ctx##name, name)`. -/
def __PP_CTXT_FUNC (N : Native W PA) (name : String × List Arg) (rest : PopM W Int) :
    PopM W Int :=
  __PP_FUNC1 N ("Ctx" ++ name.1, name.2) name rest

/-- `__PPRTC_FUNC1( cuname, hipname )`. -/
def __PPRTC_FUNC1 (N : Native W PA) (cuname hipname : String × List Arg) (rest : PopM W Int) :
    PopM W Int := fun s =>
  if s.s_api = Api.API_CUDA then
    let r := callNative N ⟨Lib.nvrtc, cuname.1, cuname.2⟩ s
    (nvrtc2pp r.1, r.2)
  else if s.s_api = Api.API_HIP then
    let r := callNative N ⟨Lib.hiprtc, hipname.1, hipname.2⟩ s
    (hiprtc2pp r.1, r.2)
  else rest s

/-- The statement `return v;`. -/
def ret {α : Type} (v : α) : PopM W α := fun s => (v, s)

/-- Scalar arguments, in order. -/
def ints (xs : List Int) : List Arg := xs.map Arg.int

/-! ## Call dispatcher -/

/-- `ppError ppGetErrorName(ppError error, const char** pStr)`. -/
def ppGetErrorName (k : Header) (N : Native W PA) (error pStr : Int) : PopM W Int :=
  __PP_FUNC1 N ("GetErrorName", ints [error, pStr]) ("GetErrorName", ints [error, pStr])
    (ret k.ppErrorUnknown)

/-- `ppError ppGetErrorString(ppError error, const char** pStr)`. -/
def ppGetErrorString (k : Header) (N : Native W PA) (error pStr : Int) : PopM W Int :=
  __PP_FUNC1 N ("GetErrorString", ints [error, pStr]) ("GetErrorString", ints [error, pStr])
    (ret k.ppErrorUnknown)

/-- `template<Api API> ppError ppInit(unsigned int Flags)`. -/
def ppInit (k : Header) (N : Native W PA) (_API : Api) (Flags : Int) : PopM W Int :=
  __PP_FUNC N ("Init", ints [Flags]) (ret k.ppErrorUnknown)

/-- `ppError ppDriverGetVersion(int* driverVersion)`. -/
def ppDriverGetVersion (k : Header) (N : Native W PA) (driverVersion : Int) : PopM W Int :=
  __PP_FUNC N ("DriverGetVersion", ints [driverVersion]) (ret k.ppErrorUnknown)

/-- `ppError ppGetDevice(int* device)`. -/
def ppGetDevice (k : Header) (N : Native W PA) (device : Int) : PopM W Int :=
  __PP_CTXT_FUNC N ("GetDevice", ints [device]) (ret k.ppErrorUnknown)

/-- `ppError ppGetDeviceCount(int* count)`. -/
def ppGetDeviceCount (k : Header) (N : Native W PA) (count : Int) : PopM W Int :=
  __PP_FUNC1 N ("DeviceGetCount", ints [count]) ("GetDeviceCount", ints [count])
    (ret k.ppErrorUnknown)

/-- The C string held in a buffer: the bytes before the first NUL. -/
def cstr (buf : CharBuf) : CharBuf := buf.takeWhile (fun c => c != 0)

/-- `strcpy(dst, src)`: the string of `src` and its terminating NUL overwrite the
start of `dst`; the bytes of `dst` after them stay. -/
def strcpy (dst src : CharBuf) : CharBuf :=
  cstr src ++ 0 :: dst.drop ((cstr src).length + 1)

/-- `memcpy(dst, src, n*sizeof(int))` on two `int[3]` arrays: the first `n` elements
are taken from `src`. -/
def memcpyInt (dst src : Fin 3 → Int) (n : Nat) : Fin 3 → Int :=
  fun i => if i.val < n then src i else dst i

/-- `ppError ppGetDeviceProperties(ppDeviceProp* props, int deviceId)`; the record
behind `props` is passed in and returned next to the result. -/
def ppGetDeviceProperties (k : Header) (N : Native W PA) (props : ppDeviceProp) (deviceId : Int) :
    PopM W (Int × ppDeviceProp) := fun s =>
  if s.s_api = Api.API_CUDA then
    let r := N.cudaGetDeviceProperties deviceId s.world
    let p := r.1.2
    let e := r.1.1
    let s1 : PopState W :=
      { s with world := r.2,
               trace := s.trace ++ [⟨⟨Lib.cuda, "GetDeviceProperties", ints [deviceId]⟩, e⟩] }
    if e ≠ k.CUDA_SUCCESS then
      ((k.ppErrorUnknown, props), s1)
    else
      let props1 := { props with name := strcpy props.name p.name }
      let props2 := { props1 with gcnArchName := strcpy props1.gcnArchName [0] }
      let props3 := { props2 with totalGlobalMem := p.totalGlobalMem }
      let props4 := { props3 with maxThreadsDim := memcpyInt props3.maxThreadsDim p.maxThreadsDim 3 }
      let props5 := { props4 with maxGridSize := memcpyInt props4.maxGridSize p.maxGridSize 3 }
      let props6 := { props5 with maxThreadsPerBlock := p.maxThreadsPerBlock }
      ((k.ppSuccess, props6), s1)
  else
    let r := N.hipGetDeviceProperties props deviceId s.world
    ((hip2pp r.1.1, r.1.2),
      { s with world := r.2,
               trace := s.trace ++ [⟨⟨Lib.hip, "GetDeviceProperties", ints [deviceId]⟩, r.1.1⟩] })

/-- `ppError ppDeviceGet(ppDevice* device, int ordinal)`. -/
def ppDeviceGet (k : Header) (N : Native W PA) (device ordinal : Int) : PopM W Int :=
  __PP_FUNC N ("DeviceGet", ints [device, ordinal]) (ret k.ppErrorUnknown)

/-- `ppError ppDeviceGetName(char* name, int len, ppDevice dev)`. -/
def ppDeviceGetName (k : Header) (N : Native W PA) (name len dev : Int) : PopM W Int :=
  __PP_FUNC N ("DeviceGetName", ints [name, len, dev]) (ret k.ppErrorUnknown)

/-- `ppError ppDeviceGetAttribute(int* pi, ppDeviceAttribute attrib, ppDevice dev)`. -/
def ppDeviceGetAttribute (k : Header) (N : Native W PA) (pi attrib dev : Int) : PopM W Int :=
  __PP_FUNC1 N ("DeviceGetAttribute", ints [pi, attrib, dev])
    ("DeviceGetAttribute", ints [pi, attrib, dev]) (ret k.ppErrorUnknown)

/-- `ppError ppDeviceComputeCapability(int* major, int* minor, ppDevice dev)`. -/
def ppDeviceComputeCapability (k : Header) (_major _minor _dev : Int) : PopM W Int :=
  ret k.ppErrorUnknown

/-- `ppError ppDevicePrimaryCtxRetain(ppCtx* pctx, ppDevice dev)`. -/
def ppDevicePrimaryCtxRetain (k : Header) (_pctx _dev : Int) : PopM W Int :=
  ret k.ppErrorUnknown

/-- `ppError ppDevicePrimaryCtxRelease(ppDevice dev)`. -/
def ppDevicePrimaryCtxRelease (k : Header) (_dev : Int) : PopM W Int :=
  ret k.ppErrorUnknown

/-- `ppError ppDevicePrimaryCtxSetFlags(ppDevice dev, unsigned int flags)`. -/
def ppDevicePrimaryCtxSetFlags (k : Header) (_dev _flags : Int) : PopM W Int :=
  ret k.ppErrorUnknown

/-- `ppError ppDevicePrimaryCtxGetState(ppDevice dev, unsigned int* flags, int* active)`. -/
def ppDevicePrimaryCtxGetState (k : Header) (_dev _flags _active : Int) : PopM W Int :=
  ret k.ppErrorUnknown

/-- `ppError ppDevicePrimaryCtxReset(ppDevice dev)`. -/
def ppDevicePrimaryCtxReset (k : Header) (_dev : Int) : PopM W Int :=
  ret k.ppErrorUnknown

/-- `ppError ppCtxCreate(ppCtx* pctx, unsigned int flags, ppDevice dev)`. -/
def ppCtxCreate (k : Header) (N : Native W PA) (pctx flags dev : Int) : PopM W Int :=
  __PP_FUNC1 N ("CtxCreate", ints [ppCtx2cu pctx, flags, dev])
    ("CtxCreate", ints [ppCtx2hip pctx, flags, dev]) (ret k.ppErrorUnknown)

/-- `ppError ppCtxDestroy(ppCtx ctx)`; `*ppCtx2cu(&ctx)` reads the handle `ctx` back
through the reinterpreted pointer. -/
def ppCtxDestroy (k : Header) (N : Native W PA) (ctx : Int) : PopM W Int :=
  __PP_FUNC1 N ("CtxDestroy", ints [ctx]) ("CtxDestroy", ints [ctx]) (ret k.ppErrorUnknown)

/-- `ppError ppCtxSetCurrent(ppCtx ctx)`; the handle is read back through the
reinterpreted pointer as in `ppCtxDestroy`. -/
def ppCtxSetCurrent (k : Header) (N : Native W PA) (ctx : Int) : PopM W Int :=
  __PP_FUNC1 N ("CtxSetCurrent", ints [ctx]) ("CtxSetCurrent", ints [ctx]) (ret k.ppErrorUnknown)

/-- `ppError ppCtxGetCurrent(ppCtx* pctx)`. -/
def ppCtxGetCurrent (k : Header) (N : Native W PA) (pctx : Int) : PopM W Int :=
  __PP_FUNC1 N ("CtxGetCurrent", ints [ppCtx2cu pctx]) ("CtxGetCurrent", ints [ppCtx2hip pctx])
    (ret k.ppErrorUnknown)

/-- `ppError ppCtxSynchronize(void)`. -/
def ppCtxSynchronize (k : Header) (N : Native W PA) : PopM W Int :=
  __PP_FUNC N ("CtxSynchronize", []) (ret k.ppErrorUnknown)

/-- `ppError ppDeviceSynchronize(void)`. -/
def ppDeviceSynchronize (k : Header) (N : Native W PA) : PopM W Int :=
  __PP_FUNC1 N ("CtxSynchronize", []) ("DeviceSynchronize", []) (ret k.ppErrorUnknown)

/-- `ppError ppCtxGetApiVersion(ppCtx ctx, unsigned int* version)`; the handle is read
back through the reinterpreted pointer as in `ppCtxDestroy`. -/
def ppCtxGetApiVersion (k : Header) (N : Native W PA) (ctx version : Int) : PopM W Int :=
  __PP_FUNC1 N ("CtxGetApiVersion", ints [ctx, version]) ("CtxGetApiVersion", ints [ctx, version])
    (ret k.ppErrorUnknown)

/-- `ppError ppModuleLoad(ppModule* module, const char* fname)`. -/
def ppModuleLoad (k : Header) (N : Native W PA) (module fname : Int) : PopM W Int :=
  __PP_FUNC1 N ("ModuleLoad", ints [module, fname]) ("ModuleLoad", ints [module, fname])
    (ret k.ppErrorUnknown)

/-- `ppError ppModuleLoadData(ppModule* module, const void* image)`. -/
def ppModuleLoadData (k : Header) (N : Native W PA) (module image : Int) : PopM W Int :=
  __PP_FUNC1 N ("ModuleLoadData", ints [module, image]) ("ModuleLoadData", ints [module, image])
    (ret k.ppErrorUnknown)

/-- `ppError ppModuleLoadDataEx(ppModule* module, const void* image, unsigned int numOptions,
ppJitOption* options, void** optionValues)`; the two arrays are given by their elements. -/
def ppModuleLoadDataEx (k : Header) (N : Native W PA) (module image numOptions : Int)
    (options optionValues : List Int) : PopM W Int :=
  __PP_FUNC1 N
    ("ModuleLoadDataEx", [Arg.int module, Arg.int image, Arg.int numOptions, Arg.arr options,
      Arg.arr optionValues])
    ("ModuleLoadDataEx", [Arg.int module, Arg.int image, Arg.int numOptions, Arg.arr options,
      Arg.arr optionValues])
    (ret k.ppErrorUnknown)

/-- `ppError ppModuleUnload(ppModule module)`. -/
def ppModuleUnload (k : Header) (N : Native W PA) (module : Int) : PopM W Int :=
  __PP_FUNC1 N ("ModuleUnload", ints [module]) ("ModuleUnload", ints [module])
    (ret k.ppErrorUnknown)

/-- `ppError ppModuleGetFunction(ppFunction* hfunc, ppModule hmod, const char* name)`. -/
def ppModuleGetFunction (k : Header) (N : Native W PA) (hfunc hmod name : Int) : PopM W Int :=
  __PP_FUNC1 N ("ModuleGetFunction", ints [hfunc, hmod, name])
    ("ModuleGetFunction", ints [hfunc, hmod, name]) (ret k.ppErrorUnknown)

/-- `ppError ppModuleGetGlobal(ppDeviceptr* dptr, size_t* bytes, ppModule hmod, const char* name)`. -/
def ppModuleGetGlobal (k : Header) (N : Native W PA) (dptr bytes hmod name : Int) : PopM W Int :=
  __PP_FUNC1 N ("ModuleGetGlobal", ints [dptr, bytes, hmod, name])
    ("ModuleGetGlobal", ints [dptr, bytes, hmod, name]) (ret k.ppErrorUnknown)

/-- `ppError ppMemGetInfo(size_t* free, size_t* total)`. -/
def ppMemGetInfo (k : Header) (_free _total : Int) : PopM W Int :=
  ret k.ppErrorUnknown

/-- `ppError ppMalloc(ppDeviceptr* dptr, size_t bytesize)`. -/
def ppMalloc (k : Header) (N : Native W PA) (dptr bytesize : Int) : PopM W Int :=
  __PP_FUNC1 N ("MemAlloc", ints [dptr, bytesize]) ("Malloc", ints [dptr, bytesize])
    (ret k.ppErrorUnknown)

/-- `ppError ppMalloc2(ppDeviceptr* dptr, size_t bytesize)`. -/
def ppMalloc2 (k : Header) (N : Native W PA) (dptr bytesize : Int) : PopM W Int :=
  __PP_FUNC2 N ("Malloc", ints [dptr, bytesize]) ("Malloc", ints [dptr, bytesize])
    (ret k.ppErrorUnknown)

/-- `ppError ppMemAllocPitch(ppDeviceptr* dptr, size_t* pPitch, size_t WidthInBytes,
size_t Height, unsigned int ElementSizeBytes)`. -/
def ppMemAllocPitch (k : Header) (_dptr _pPitch _WidthInBytes _Height _ElementSizeBytes : Int) :
    PopM W Int :=
  ret k.ppErrorUnknown

/-- `ppError ppFree(ppDeviceptr dptr)`. -/
def ppFree (k : Header) (N : Native W PA) (dptr : Int) : PopM W Int :=
  __PP_FUNC1 N ("MemFree", ints [dptr]) ("Free", ints [dptr]) (ret k.ppErrorUnknown)

/-- `ppError ppFree2(ppDeviceptr dptr)`. -/
def ppFree2 (k : Header) (N : Native W PA) (dptr : Int) : PopM W Int :=
  __PP_FUNC2 N ("Free", ints [dptr]) ("Free", ints [dptr]) (ret k.ppErrorUnknown)

/-- `ppError ppMemcpy(void *dstDevice, void* srcHost, size_t ByteCount, ppMemcpyKind kind)`. -/
def ppMemcpy (k : Header) (N : Native W PA) (dstDevice srcHost ByteCount kind : Int) : PopM W Int :=
  __PP_FUNC2 N ("Memcpy", ints [dstDevice, srcHost, ByteCount, kind])
    ("Memcpy", ints [dstDevice, srcHost, ByteCount, kind]) (ret k.ppErrorUnknown)

/-- `ppError ppMemcpyHtoD(ppDeviceptr dstDevice, void* srcHost, size_t ByteCount)`. -/
def ppMemcpyHtoD (k : Header) (N : Native W PA) (dstDevice srcHost ByteCount : Int) : PopM W Int :=
  __PP_FUNC1 N ("MemcpyHtoD", ints [dstDevice, srcHost, ByteCount])
    ("MemcpyHtoD", ints [dstDevice, srcHost, ByteCount]) (ret k.ppErrorUnknown)

/-- `ppError ppMemcpyDtoH(void* dstHost, ppDeviceptr srcDevice, size_t ByteCount)`. -/
def ppMemcpyDtoH (k : Header) (N : Native W PA) (dstHost srcDevice ByteCount : Int) : PopM W Int :=
  __PP_FUNC1 N ("MemcpyDtoH", ints [dstHost, srcDevice, ByteCount])
    ("MemcpyDtoH", ints [dstHost, srcDevice, ByteCount]) (ret k.ppErrorUnknown)

/-- `ppError ppMemcpyDtoD(ppDeviceptr dstDevice, ppDeviceptr srcDevice, size_t ByteCount)`. -/
def ppMemcpyDtoD (k : Header) (N : Native W PA) (dstDevice srcDevice ByteCount : Int) : PopM W Int :=
  __PP_FUNC N ("MemcpyDtoD", ints [dstDevice, srcDevice, ByteCount]) (ret k.ppErrorUnknown)

/-- `ppError ppMemset(ppDeviceptr dstDevice, unsigned int ui, size_t N)`. The second
parameter of `cuMemsetD8` is an `unsigned char`, so the `unsigned int` argument is
converted to it (reduced modulo 256); `hipMemset` is handed `ui` as it is. -/
def ppMemset (k : Header) (N : Native W PA) (dstDevice : Int) (ui : Nat) (n : Int) : PopM W Int :=
  __PP_FUNC1 N ("MemsetD8", ints [dstDevice, ((ui % 256 : Nat) : Int), n])
    ("Memset", ints [dstDevice, (ui : Int), n]) (ret k.ppErrorUnknown)

/-- `ppError ppMemsetD8(ppDeviceptr dstDevice, unsigned char ui, size_t N)`. -/
def ppMemsetD8 (k : Header) (N : Native W PA) (dstDevice ui n : Int) : PopM W Int :=
  __PP_FUNC N ("MemsetD8", ints [dstDevice, ui, n]) (ret k.ppErrorUnknown)

/-- `ppError ppMemsetD16(ppDeviceptr dstDevice, unsigned short ui, size_t N)`. -/
def ppMemsetD16 (k : Header) (N : Native W PA) (dstDevice ui n : Int) : PopM W Int :=
  __PP_FUNC N ("MemsetD16", ints [dstDevice, ui, n]) (ret k.ppErrorUnknown)

/-- `ppError ppMemsetD32(ppDeviceptr dstDevice, unsigned int ui, size_t N)`. -/
def ppMemsetD32 (k : Header) (N : Native W PA) (dstDevice ui n : Int) : PopM W Int :=
  __PP_FUNC N ("MemsetD32", ints [dstDevice, ui, n]) (ret k.ppErrorUnknown)

/-- `ppError ppModuleLaunchKernel(ppFunction f, unsigned int gridDimX, unsigned int gridDimY,
unsigned int gridDimZ, unsigned int blockDimX, unsigned int blockDimY, unsigned int blockDimZ,
unsigned int sharedMemBytes, ppStream hStream, void** kernelParams, void** extra)`. -/
def ppModuleLaunchKernel (k : Header) (N : Native W PA)
    (f gridDimX gridDimY gridDimZ blockDimX blockDimY blockDimZ sharedMemBytes hStream
      kernelParams extra : Int) : PopM W Int :=
  __PP_FUNC1 N
    ("LaunchKernel", ints [f, gridDimX, gridDimY, gridDimZ, blockDimX, blockDimY, blockDimZ,
      sharedMemBytes, hStream, kernelParams, extra])
    ("ModuleLaunchKernel", ints [f, gridDimX, gridDimY, gridDimZ, blockDimX, blockDimY, blockDimZ,
      sharedMemBytes, hStream, kernelParams, extra])
    (ret k.ppErrorUnknown)

/-- `ppError ppGetLastError(ppError pp_error)`. -/
def ppGetLastError (k : Header) (N : Native W PA) (pp_error : Int) : PopM W Int :=
  __PP_FUNC2 N ("GetLastError", ints [pp_error]) ("GetLastError", ints [pp_error])
    (ret k.ppErrorUnknown)

/-! ## Runtime compilation -/

/-- `pprtcResult pprtcGetErrorString(pprtcResult result)`. -/
def pprtcGetErrorString (k : Header) (_result : Int) : PopM W Int :=
  ret k.PPRTC_ERROR_INTERNAL_ERROR

/-- `pprtcResult pprtcAddNameExpression(pprtcProgram prog, const char* name_expression)`. -/
def pprtcAddNameExpression (k : Header) (_prog _name_expression : Int) : PopM W Int :=
  ret k.PPRTC_ERROR_INTERNAL_ERROR

/-- `pprtcResult pprtcCompileProgram(pprtcProgram prog, int numOptions, const char** options)`. -/
def pprtcCompileProgram (k : Header) (N : Native W PA) (prog numOptions options : Int) :
    PopM W Int :=
  __PPRTC_FUNC1 N ("CompileProgram", ints [prog, numOptions, options])
    ("CompileProgram", ints [prog, numOptions, options]) (ret k.PPRTC_ERROR_INTERNAL_ERROR)

/-- `pprtcResult pprtcCreateProgram(pprtcProgram* prog, const char* src, const char* name,
int numHeaders, const char** headers, const char** includeNames)`. -/
def pprtcCreateProgram (k : Header) (N : Native W PA)
    (prog src name numHeaders headers includeNames : Int) : PopM W Int :=
  __PPRTC_FUNC1 N ("CreateProgram", ints [prog, src, name, numHeaders, headers, includeNames])
    ("CreateProgram", ints [prog, src, name, numHeaders, headers, includeNames])
    (ret k.PPRTC_ERROR_INTERNAL_ERROR)

/-- `pprtcResult pprtcDestroyProgram(pprtcProgram* prog)`. -/
def pprtcDestroyProgram (k : Header) (N : Native W PA) (prog : Int) : PopM W Int :=
  __PPRTC_FUNC1 N ("DestroyProgram", ints [prog]) ("DestroyProgram", ints [prog])
    (ret k.PPRTC_ERROR_INTERNAL_ERROR)

/-- `pprtcResult pprtcGetLoweredName(pprtcProgram prog, const char* name_expression,
const char** lowered_name)`; the pointer stored behind `lowered_name` is passed in and
returned next to the result. -/
def pprtcGetLoweredName (k : Header) (_prog _name_expression : Int) (lowered_name : Int) :
    PopM W (Int × Int) :=
  ret (k.PPRTC_ERROR_INTERNAL_ERROR, lowered_name)

/-- `pprtcResult pprtcGetProgramLog(pprtcProgram prog, char* log)`. -/
def pprtcGetProgramLog (k : Header) (N : Native W PA) (prog log : Int) : PopM W Int :=
  __PPRTC_FUNC1 N ("GetProgramLog", ints [prog, log]) ("GetProgramLog", ints [prog, log])
    (ret k.PPRTC_ERROR_INTERNAL_ERROR)

/-- `pprtcResult pprtcGetProgramLogSize(pprtcProgram prog, size_t* logSizeRet)`. -/
def pprtcGetProgramLogSize (k : Header) (N : Native W PA) (prog logSizeRet : Int) : PopM W Int :=
  __PPRTC_FUNC1 N ("GetProgramLogSize", ints [prog, logSizeRet])
    ("GetProgramLogSize", ints [prog, logSizeRet]) (ret k.PPRTC_ERROR_INTERNAL_ERROR)

/-- `pprtcResult pprtcGetCode(pprtcProgram prog, char* code)`. -/
def pprtcGetCode (k : Header) (N : Native W PA) (prog code : Int) : PopM W Int :=
  __PPRTC_FUNC1 N ("GetPTX", ints [prog, code]) ("GetCode", ints [prog, code])
    (ret k.PPRTC_ERROR_INTERNAL_ERROR)

/-- `pprtcResult pprtcGetCodeSize(pprtcProgram prog, size_t* codeSizeRet)`. -/
def pprtcGetCodeSize (k : Header) (N : Native W PA) (prog codeSizeRet : Int) : PopM W Int :=
  __PPRTC_FUNC1 N ("GetPTXSize", ints [prog, codeSizeRet]) ("GetCodeSize", ints [prog, codeSizeRet])
    (ret k.PPRTC_ERROR_INTERNAL_ERROR)

/-! ## Pointer attributes and streams -/

/-- `ppError ppPointerGetAttributes(ppPointerAttribute* attr, ppDeviceptr dptr)`; the
record behind `attr` is passed in and returned next to the result. Under CUDA the
queried value goes to the local `unsigned int data`, which is dropped on return. -/
def ppPointerGetAttributes (k : Header) (N : Native W PA) (attr : PA) (dptr : Int) :
    PopM W (Int × PA) := fun s =>
  if s.s_api = Api.API_CUDA then
    let r := N.cuPointerGetAttribute k.CU_POINTER_ATTRIBUTE_MEMORY_TYPE dptr s.world
    let _data := r.1.2
    ((cu2pp r.1.1, attr),
      { s with world := r.2,
               trace := s.trace ++
                 [⟨⟨Lib.cu, "PointerGetAttribute",
                    ints [k.CU_POINTER_ATTRIBUTE_MEMORY_TYPE, dptr]⟩, r.1.1⟩] })
  else if s.s_api = Api.API_HIP then
    let r := N.hipPointerGetAttributes attr dptr s.world
    ((hip2pp r.1.1, r.1.2),
      { s with world := r.2,
               trace := s.trace ++ [⟨⟨Lib.hip, "PointerGetAttributes", ints [dptr]⟩, r.1.1⟩] })
  else
    ((k.ppErrorUnknown, attr), s)

/-- `ppError ppStreamCreate(ppStream* stream)`. -/
def ppStreamCreate (k : Header) (N : Native W PA) (stream : Int) : PopM W Int :=
  __PP_FUNC2 N ("StreamCreate", ints [stream]) ("StreamCreate", ints [stream])
    (ret k.ppErrorUnknown)

/-! ## The operations as data

One constructor per function of the dispatch layer, carrying the arguments of a
call, so that statements can range over every operation and over sequences of calls. -/

/-- A call of one operation of `Pop.cpp` (the selector functions apart). -/
inductive Op (PA : Type) where
  | ppGetErrorName (error pStr : Int)
  | ppGetErrorString (error pStr : Int)
  | ppInit (API : Api) (Flags : Int)
  | ppDriverGetVersion (driverVersion : Int)
  | ppGetDevice (device : Int)
  | ppGetDeviceCount (count : Int)
  | ppGetDeviceProperties (props : ppDeviceProp) (deviceId : Int)
  | ppDeviceGet (device ordinal : Int)
  | ppDeviceGetName (name len dev : Int)
  | ppDeviceGetAttribute (pi attrib dev : Int)
  | ppDeviceComputeCapability (major minor dev : Int)
  | ppDevicePrimaryCtxRetain (pctx dev : Int)
  | ppDevicePrimaryCtxRelease (dev : Int)
  | ppDevicePrimaryCtxSetFlags (dev flags : Int)
  | ppDevicePrimaryCtxGetState (dev flags active : Int)
  | ppDevicePrimaryCtxReset (dev : Int)
  | ppCtxCreate (pctx flags dev : Int)
  | ppCtxDestroy (ctx : Int)
  | ppCtxSetCurrent (ctx : Int)
  | ppCtxGetCurrent (pctx : Int)
  | ppCtxSynchronize
  | ppDeviceSynchronize
  | ppCtxGetApiVersion (ctx version : Int)
  | ppModuleLoad (module fname : Int)
  | ppModuleLoadData (module image : Int)
  | ppModuleLoadDataEx (module image numOptions : Int) (options optionValues : List Int)
  | ppModuleUnload (module : Int)
  | ppModuleGetFunction (hfunc hmod name : Int)
  | ppModuleGetGlobal (dptr bytes hmod name : Int)
  | ppMemGetInfo (free total : Int)
  | ppMalloc (dptr bytesize : Int)
  | ppMalloc2 (dptr bytesize : Int)
  | ppMemAllocPitch (dptr pPitch WidthInBytes Height ElementSizeBytes : Int)
  | ppFree (dptr : Int)
  | ppFree2 (dptr : Int)
  | ppMemcpy (dstDevice srcHost ByteCount kind : Int)
  | ppMemcpyHtoD (dstDevice srcHost ByteCount : Int)
  | ppMemcpyDtoH (dstHost srcDevice ByteCount : Int)
  | ppMemcpyDtoD (dstDevice srcDevice ByteCount : Int)
  | ppMemset (dstDevice : Int) (ui : Nat) (n : Int)
  | ppMemsetD8 (dstDevice ui n : Int)
  | ppMemsetD16 (dstDevice ui n : Int)
  | ppMemsetD32 (dstDevice ui n : Int)
  | ppModuleLaunchKernel (f gridDimX gridDimY gridDimZ blockDimX blockDimY blockDimZ
      sharedMemBytes hStream kernelParams extra : Int)
  | ppGetLastError (pp_error : Int)
  | pprtcGetErrorString (result : Int)
  | pprtcAddNameExpression (prog name_expression : Int)
  | pprtcCompileProgram (prog numOptions options : Int)
  | pprtcCreateProgram (prog src name numHeaders headers includeNames : Int)
  | pprtcDestroyProgram (prog : Int)
  | pprtcGetLoweredName (prog name_expression lowered_name : Int)
  | pprtcGetProgramLog (prog log : Int)
  | pprtcGetProgramLogSize (prog logSizeRet : Int)
  | pprtcGetCode (prog code : Int)
  | pprtcGetCodeSize (prog codeSizeRet : Int)
  | ppPointerGetAttributes (attr : PA) (dptr : Int)
  | ppStreamCreate (stream : Int)

/-- Drop the output record of a computation, keeping result code and state. -/
def resultOnly {α : Type} (m : PopM W (Int × α)) : PopM W Int := fun s =>
  ((m s).1.1, (m s).2)

/-- Run one call: the result code and the state after it. -/
def Op.run (k : Header) (N : Native W PA) : Op PA → PopM W Int
  | .ppGetErrorName error pStr => Pop.ppGetErrorName k N error pStr
  | .ppGetErrorString error pStr => Pop.ppGetErrorString k N error pStr
  | .ppInit API Flags => Pop.ppInit k N API Flags
  | .ppDriverGetVersion driverVersion => Pop.ppDriverGetVersion k N driverVersion
  | .ppGetDevice device => Pop.ppGetDevice k N device
  | .ppGetDeviceCount count => Pop.ppGetDeviceCount k N count
  | .ppGetDeviceProperties props deviceId => resultOnly (Pop.ppGetDeviceProperties k N props deviceId)
  | .ppDeviceGet device ordinal => Pop.ppDeviceGet k N device ordinal
  | .ppDeviceGetName name len dev => Pop.ppDeviceGetName k N name len dev
  | .ppDeviceGetAttribute pi attrib dev => Pop.ppDeviceGetAttribute k N pi attrib dev
  | .ppDeviceComputeCapability major minor dev => Pop.ppDeviceComputeCapability k major minor dev
  | .ppDevicePrimaryCtxRetain pctx dev => Pop.ppDevicePrimaryCtxRetain k pctx dev
  | .ppDevicePrimaryCtxRelease dev => Pop.ppDevicePrimaryCtxRelease k dev
  | .ppDevicePrimaryCtxSetFlags dev flags => Pop.ppDevicePrimaryCtxSetFlags k dev flags
  | .ppDevicePrimaryCtxGetState dev flags active => Pop.ppDevicePrimaryCtxGetState k dev flags active
  | .ppDevicePrimaryCtxReset dev => Pop.ppDevicePrimaryCtxReset k dev
  | .ppCtxCreate pctx flags dev => Pop.ppCtxCreate k N pctx flags dev
  | .ppCtxDestroy ctx => Pop.ppCtxDestroy k N ctx
  | .ppCtxSetCurrent ctx => Pop.ppCtxSetCurrent k N ctx
  | .ppCtxGetCurrent pctx => Pop.ppCtxGetCurrent k N pctx
  | .ppCtxSynchronize => Pop.ppCtxSynchronize k N
  | .ppDeviceSynchronize => Pop.ppDeviceSynchronize k N
  | .ppCtxGetApiVersion ctx version => Pop.ppCtxGetApiVersion k N ctx version
  | .ppModuleLoad module fname => Pop.ppModuleLoad k N module fname
  | .ppModuleLoadData module image => Pop.ppModuleLoadData k N module image
  | .ppModuleLoadDataEx module image numOptions options optionValues =>
      Pop.ppModuleLoadDataEx k N module image numOptions options optionValues
  | .ppModuleUnload module => Pop.ppModuleUnload k N module
  | .ppModuleGetFunction hfunc hmod name => Pop.ppModuleGetFunction k N hfunc hmod name
  | .ppModuleGetGlobal dptr bytes hmod name => Pop.ppModuleGetGlobal k N dptr bytes hmod name
  | .ppMemGetInfo free total => Pop.ppMemGetInfo k free total
  | .ppMalloc dptr bytesize => Pop.ppMalloc k N dptr bytesize
  | .ppMalloc2 dptr bytesize => Pop.ppMalloc2 k N dptr bytesize
  | .ppMemAllocPitch dptr pPitch WidthInBytes Height ElementSizeBytes =>
      Pop.ppMemAllocPitch k dptr pPitch WidthInBytes Height ElementSizeBytes
  | .ppFree dptr => Pop.ppFree k N dptr
  | .ppFree2 dptr => Pop.ppFree2 k N dptr
  | .ppMemcpy dstDevice srcHost ByteCount kind => Pop.ppMemcpy k N dstDevice srcHost ByteCount kind
  | .ppMemcpyHtoD dstDevice srcHost ByteCount => Pop.ppMemcpyHtoD k N dstDevice srcHost ByteCount
  | .ppMemcpyDtoH dstHost srcDevice ByteCount => Pop.ppMemcpyDtoH k N dstHost srcDevice ByteCount
  | .ppMemcpyDtoD dstDevice srcDevice ByteCount => Pop.ppMemcpyDtoD k N dstDevice srcDevice ByteCount
  | .ppMemset dstDevice ui n => Pop.ppMemset k N dstDevice ui n
  | .ppMemsetD8 dstDevice ui n => Pop.ppMemsetD8 k N dstDevice ui n
  | .ppMemsetD16 dstDevice ui n => Pop.ppMemsetD16 k N dstDevice ui n
  | .ppMemsetD32 dstDevice ui n => Pop.ppMemsetD32 k N dstDevice ui n
  | .ppModuleLaunchKernel f gridDimX gridDimY gridDimZ blockDimX blockDimY blockDimZ
      sharedMemBytes hStream kernelParams extra =>
      Pop.ppModuleLaunchKernel k N f gridDimX gridDimY gridDimZ blockDimX blockDimY blockDimZ
        sharedMemBytes hStream kernelParams extra
  | .ppGetLastError pp_error => Pop.ppGetLastError k N pp_error
  | .pprtcGetErrorString result => Pop.pprtcGetErrorString k result
  | .pprtcAddNameExpression prog name_expression => Pop.pprtcAddNameExpression k prog name_expression
  | .pprtcCompileProgram prog numOptions options => Pop.pprtcCompileProgram k N prog numOptions options
  | .pprtcCreateProgram prog src name numHeaders headers includeNames =>
      Pop.pprtcCreateProgram k N prog src name numHeaders headers includeNames
  | .pprtcDestroyProgram prog => Pop.pprtcDestroyProgram k N prog
  | .pprtcGetLoweredName prog name_expression lowered_name =>
      resultOnly (Pop.pprtcGetLoweredName k prog name_expression lowered_name)
  | .pprtcGetProgramLog prog log => Pop.pprtcGetProgramLog k N prog log
  | .pprtcGetProgramLogSize prog logSizeRet => Pop.pprtcGetProgramLogSize k N prog logSizeRet
  | .pprtcGetCode prog code => Pop.pprtcGetCode k N prog code
  | .pprtcGetCodeSize prog codeSizeRet => Pop.pprtcGetCodeSize k N prog codeSizeRet
  | .ppPointerGetAttributes attr dptr => resultOnly (Pop.ppPointerGetAttributes k N attr dptr)
  | .ppStreamCreate stream => Pop.ppStreamCreate k N stream

/-- The operations whose body returns a constant and nothing else. -/
def Op.isStub : Op PA → Bool
  | .ppDeviceComputeCapability .. => true
  | .ppDevicePrimaryCtxRetain .. => true
  | .ppDevicePrimaryCtxRelease .. => true
  | .ppDevicePrimaryCtxSetFlags .. => true
  | .ppDevicePrimaryCtxGetState .. => true
  | .ppDevicePrimaryCtxReset .. => true
  | .ppMemGetInfo .. => true
  | .ppMemAllocPitch .. => true
  | .pprtcGetErrorString .. => true
  | .pprtcAddNameExpression .. => true
  | .pprtcGetLoweredName .. => true
  | _ => false

/-- The two operations written out by hand instead of through a dispatch definition. -/
def Op.isHandWritten : Op PA → Bool
  | .ppGetDeviceProperties .. => true
  | .ppPointerGetAttributes .. => true
  | _ => false

/-- The operations built on `__PP_FUNC`, `__PP_FUNC1`, `__PP_FUNC2`, `__PP_CTXT_FUNC`
or `__PPRTC_FUNC1`. -/
def Op.forwards (op : Op PA) : Bool := !op.isStub && !op.isHandWritten

/-- The operations of the runtime-compilation group, whose result type is `pprtcResult`;
all the others return `ppError`. -/
def Op.isRtc : Op PA → Bool
  | .pprtcGetErrorString .. => true
  | .pprtcAddNameExpression .. => true
  | .pprtcCompileProgram .. => true
  | .pprtcCreateProgram .. => true
  | .pprtcDestroyProgram .. => true
  | .pprtcGetLoweredName .. => true
  | .pprtcGetProgramLog .. => true
  | .pprtcGetProgramLogSize .. => true
  | .pprtcGetCode .. => true
  | .pprtcGetCodeSize .. => true
  | _ => false

/-- A step of a caller that does not call `ppInitialize`: a read of the selection or
a call of an operation. -/
inductive Step (PA : Type) where
  | getCurAPI (flags : Nat)
  | op (o : Op PA)

/-- Run a sequence of steps; the values that the `ppGetCurAPI` calls returned are
collected in order, next to the final state. -/
def runSteps (k : Header) (N : Native W PA) : List (Step PA) → PopState W → List Api × PopState W
  | [], s => ([], s)
  | Step.getCurAPI flags :: rest, s =>
      let r := ppGetCurAPI flags s
      let t := runSteps k N rest r.2
      (r.1 :: t.1, t.2)
  | Step.op o :: rest, s =>
      let r := o.run k N s
      runSteps k N rest r.2

/-- The operation `ppGetDeviceProperties`. -/
def Op.isGetDeviceProperties : Op PA → Bool
  | .ppGetDeviceProperties .. => true
  | _ => false

/-- The number of `ppGetCurAPI` calls in a sequence of steps. -/
def numReads : List (Step PA) → Nat
  | [] => 0
  | Step.getCurAPI _ :: rest => numReads rest + 1
  | Step.op _ :: rest => numReads rest

/-! ## Link sessions

The link-session functions and the vendor linker behind them are not part of
`Pop.cpp`; this section follows the description of the session in the specification. -/

/-- Modelled from the spec: the states of a link session, whose functions are not part of
the sources: `created → (accepting fragments)* → completed → destroyed`; a created
session is one that accepts fragments. -/
inductive LinkPhase where
  | accepting
  | completed
  | destroyed
deriving DecidableEq, Repr

/-- Modelled from the spec: one input fragment of a link session, with its record of
encoding kind, raw bytes and byte length, and what its device code means to the linker:
the symbols (functions, kernel entry points) it defines and the symbols it calls
without defining them. -/
structure Fragment where
  kind : Int
  bytes : List Nat
  length : Nat
  defines : List String
  needs : List String
deriving DecidableEq, Repr

/-- Modelled from the spec: the mutable state of a link session: its phase, the options
stored by `create`, and the fragments accumulated so far in the order they were added. -/
structure LinkSession where
  phase : LinkPhase
  options : List (Int × Int)
  fragments : List Fragment
deriving DecidableEq, Repr

/-- Modelled from the spec: what is backend-specific in the native linker, which is not
part of the sources: which encoding kinds are valid for the backend, whether it can also
resolve a symbol against fragments added earlier (later-added fragments "may not be able
to resolve symbols only defined in earlier ones"), and the native failure statuses for
an invalid fragment, an unresolved symbol and an operation outside its valid state. -/
structure NativeLinker where
  validKind : Int → Bool
  resolvesEarlier : Bool
  invalidInput : Int
  unresolvedSymbol : Int
  stateError : Int

/-- Modelled from the spec: a fragment is well formed when its byte length is the length
of its raw bytes and it carries device code at all. -/
def Fragment.wellFormed (f : Fragment) : Bool :=
  f.length == f.bytes.length && decide (0 < f.length)

/-- Modelled from the spec: a fragment is valid for a backend when it is well formed and
its encoding kind is one the backend supports. -/
def NativeLinker.valid (L : NativeLinker) (f : Fragment) : Bool :=
  L.validKind f.kind && f.wellFormed

/-- Modelled from the spec: the symbol `x` is defined by one of the fragments `fs`. -/
def definedIn (x : String) (fs : List Fragment) : Bool :=
  fs.any (fun f => f.defines.contains x)

/-- Modelled from the spec: every symbol the fragment calls is defined among `avail`. -/
def resolvedAgainst (avail : List Fragment) (f : Fragment) : Bool :=
  f.needs.all (fun x => definedIn x avail)

/-- Modelled from the spec: the fragments are in dependency order, the standard link-order
rule: each one finds every symbol it calls in itself or in a fragment added after it (the
link tests add the kernel first and then the fragment with the function it calls). -/
def inDependencyOrder : List Fragment → Bool
  | [] => true
  | f :: later => resolvedAgainst (f :: later) f && inDependencyOrder later

/-- Modelled from the spec: the native linker resolves the fragments `fs`, added after the
fragments `earlier`: each fragment against itself and the later ones, and against the
earlier ones too on a backend that can do so. -/
def linkResolves (L : NativeLinker) (earlier : List Fragment) : List Fragment → Bool
  | [] => true
  | f :: later =>
      resolvedAgainst (if L.resolvesEarlier = true then earlier ++ f :: later else f :: later) f &&
        linkResolves L (earlier ++ [f]) later

/-- Modelled from the spec: the one module image that `complete` synthesizes "from all
accumulated fragments, in the order they were added"; it is represented by those fragments
in that order. -/
structure Image where
  parts : List Fragment
deriving DecidableEq, Repr

/-- Modelled from the spec: the binary blob of an image: the code of its fragments, in order. -/
def Image.bytes (img : Image) : List Nat :=
  (img.parts.map Fragment.bytes).flatten

/-- Modelled from the spec: the symbols a loaded image offers for lookup by name. -/
def Image.symbols (img : Image) : List String :=
  (img.parts.map Fragment.defines).flatten

/-- Modelled from the spec: an image can be loaded as a module when no fragment in it is
left with a call to a symbol that the image does not define. -/
def Image.loadable (img : Image) : Bool :=
  img.parts.all (fun f => resolvedAgainst img.parts f)

/-- Modelled from the spec: loading an image as a module and looking a function up by
name: the lookup yields a handle (here the position of the symbol) when the image is
loadable and defines the name, and nothing otherwise. -/
def Image.getFunction (img : Image) (name : String) : Option Nat :=
  if img.loadable = true ∧ img.symbols.contains name = true then
    some (img.symbols.indexOf name)
  else
    none

/-- Modelled from the spec: `create(options)` of the link session (not part of the sources)
allocates the state and stores the options. -/
def linkCreate (k : Header) (options : List (Int × Int)) : Int × LinkSession :=
  (k.PPRTC_SUCCESS, { phase := LinkPhase.accepting, options := options, fragments := [] })

/-- Modelled from the spec: `addData(session, encodingKind, bytes, length, optionalName,
optionalOptions)` of the link session (not part of the sources) appends one fragment; it is
valid only while the session accepts fragments, and a fragment that is not valid for the
backend surfaces as the native failure instead of being added. -/
def linkAddData (k : Header) (L : NativeLinker) (s : LinkSession) (f : Fragment)
    (_name : Option String) (_options : List (Int × Int)) : Int × LinkSession :=
  if s.phase = LinkPhase.accepting then
    if L.valid f = true then
      (k.PPRTC_SUCCESS, { s with fragments := s.fragments ++ [f] })
    else
      (L.invalidInput, s)
  else
    (L.stateError, s)

/-- Modelled from the spec: `complete(session) -> (binary, size)` of the link session (not
part of the sources) synthesizes one module image from all accumulated fragments in the
order they were added and moves the session to `completed`; the outputs are the binary
(`none` for a null pointer) and its size. Symbols the linker cannot resolve surface as the
native failure. -/
def linkComplete (k : Header) (L : NativeLinker) (s : LinkSession) :
    (Int × Option Image × Nat) × LinkSession :=
  if s.phase = LinkPhase.accepting then
    if linkResolves L [] s.fragments = true then
      ((k.PPRTC_SUCCESS, some { parts := s.fragments },
          (Image.bytes { parts := s.fragments }).length),
        { s with phase := LinkPhase.completed })
    else
      ((L.unresolvedSymbol, none, 0), s)
  else
    ((L.stateError, none, 0), s)

/-- Modelled from the spec: `destroy` of the link session (not part of the sources)
releases the session; no operation is valid afterwards. -/
def linkDestroy (k : Header) (L : NativeLinker) (s : LinkSession) : Int × LinkSession :=
  if s.phase = LinkPhase.destroyed then
    (L.stateError, s)
  else
    (k.PPRTC_SUCCESS, { s with phase := LinkPhase.destroyed })

/-! ## Sample values for concrete evaluations -/

/-- The values these enumerators have in the vendor headers and in `Pop.h`. -/
def sampleHeader : Header :=
  { ppSuccess := 0, ppErrorUnknown := 999, PP_ERROR_OPEN_FAILED := -1,
    PPRTC_SUCCESS := 0, PPRTC_ERROR_INTERNAL_ERROR := 11, CUDA_SUCCESS := 0,
    CUEW_INIT_CUDA := 1, CUEW_INIT_NVRTC := 2, HIPEW_INIT_HIP := 1,
    CU_POINTER_ATTRIBUTE_MEMORY_TYPE := 2 }

/-- A property record with every field cleared. -/
def zeroProp : ppDeviceProp :=
  { name := [0, 0, 0, 0], gcnArchName := [0, 0, 0, 0], totalGlobalMem := 0,
    maxThreadsDim := fun _ => 0, maxGridSize := fun _ => 0, maxThreadsPerBlock := 0,
    major := 0, multiProcessorCount := 0, others := [] }

/-- The CUDA record of a sample device named "GPU" with 8 GiB of memory. -/
def sampleCudaProp : cudaDeviceProp :=
  { name := [71, 80, 85, 0], totalGlobalMem := 8589934592,
    maxThreadsDim := fun i => if i.val = 2 then 64 else 1024,
    maxGridSize := fun i => if i.val = 0 then 2147483647 else 65535,
    maxThreadsPerBlock := 1024, others := [] }

/-- The HIP record of a sample device named "gfx" with 16 GiB of memory. -/
def sampleHipProp : ppDeviceProp :=
  { name := [103, 102, 120, 0], gcnArchName := [103, 102, 120, 0], totalGlobalMem := 17179869184,
    maxThreadsDim := fun _ => 1024, maxGridSize := fun _ => 2147483647,
    maxThreadsPerBlock := 1024, major := 10, multiProcessorCount := 60, others := [] }

/-- A sample native side over a world that counts the calls made: every entry point
succeeds with status 0; the pointer query reports memory type `2`; the pointer
attribute record is a single number, the memory type. -/
def sampleNative : Native Nat Int :=
  { call := fun _ w => (0, w + 1),
    cudaGetDeviceProperties := fun _ w => ((0, sampleCudaProp), w + 1),
    hipGetDeviceProperties := fun _ _ w => ((0, sampleHipProp), w + 1),
    cuPointerGetAttribute := fun _ _ w => ((0, 2), w + 1),
    hipPointerGetAttributes := fun _ _ w => ((0, 2), w + 1) }

/-- A sample native side on which every entry point fails with status `st`, leaving
every output as it was. -/
def failingNative (st : Int) : Native Nat Int :=
  { call := fun _ w => (st, w + 1),
    cudaGetDeviceProperties := fun _ w => ((st, sampleCudaProp), w + 1),
    hipGetDeviceProperties := fun p _ w => ((st, p), w + 1),
    cuPointerGetAttribute := fun _ _ w => ((st, 0), w + 1),
    hipPointerGetAttributes := fun a _ w => ((st, a), w + 1) }

/-- A state with the given selection, a fresh world and an empty log. -/
def stateWith (api : Api) : PopState Nat :=
  { s_api := api, world := 0, trace := [] }

/-- A sample backend linker: encoding kinds 0 and 1 are valid, symbols are resolved by
the standard link-order rule only. -/
def sampleLinker : NativeLinker :=
  { validKind := fun kd => kd == 0 || kd == 1,
    resolvesEarlier := false,
    invalidInput := 1, unresolvedSymbol := 2, stateError := 3 }

/-- A sample fragment holding the device function `testFunc`. -/
def sampleFunc : Fragment :=
  { kind := 0, bytes := [66, 67, 1], length := 3, defines := ["testFunc"], needs := [] }

/-- A sample fragment holding the kernel `testKernel`, which calls `testFunc`. -/
def sampleKernel : Fragment :=
  { kind := 0, bytes := [66, 67, 2, 3], length := 4, defines := ["testKernel"],
    needs := ["testFunc"] }

/-! ## Helper lemmas -/

/-- Under CUDA a forwarding operation is one logged call into a CUDA-side library. -/
theorem run_forwards_cuda (k : Header) (N : Native W PA) (op : Op PA) (s : PopState W)
    (hop : op.forwards = true) (h : s.s_api = Api.API_CUDA) :
    ∃ c : NativeCall, c.lib.isCuda = true ∧ c.lib.isHip = false ∧
      op.run k N s = callNative N c s := by
  cases op <;> simp [Op.forwards, Op.isStub, Op.isHandWritten] at hop <;>
    simp [Op.run, __PP_FUNC1, __PP_FUNC2, __PP_FUNC, __PP_CTXT_FUNC, __PPRTC_FUNC1, h,
      cu2pp, hip2pp, cuda2pp, nvrtc2pp, hiprtc2pp,
      ppGetErrorName, ppGetErrorString, ppInit, ppDriverGetVersion, ppGetDevice, ppGetDeviceCount,
      ppDeviceGet, ppDeviceGetName, ppDeviceGetAttribute, ppCtxCreate, ppCtxDestroy,
      ppCtxSetCurrent, ppCtxGetCurrent, ppCtxSynchronize, ppDeviceSynchronize, ppCtxGetApiVersion,
      ppModuleLoad, ppModuleLoadData, ppModuleLoadDataEx, ppModuleUnload, ppModuleGetFunction,
      ppModuleGetGlobal, ppMalloc, ppMalloc2, ppFree, ppFree2, ppMemcpy, ppMemcpyHtoD,
      ppMemcpyDtoH, ppMemcpyDtoD, ppMemset, ppMemsetD8, ppMemsetD16, ppMemsetD32,
      ppModuleLaunchKernel, ppGetLastError, pprtcCompileProgram, pprtcCreateProgram,
      pprtcDestroyProgram, pprtcGetProgramLog, pprtcGetProgramLogSize, pprtcGetCode,
      pprtcGetCodeSize, ppStreamCreate] <;>
    (refine ⟨_, ?_, ?_, rfl⟩ <;> rfl)

/-- Under HIP a forwarding operation is one logged call into a HIP-side library. -/
theorem run_forwards_hip (k : Header) (N : Native W PA) (op : Op PA) (s : PopState W)
    (hop : op.forwards = true) (h : s.s_api = Api.API_HIP) :
    ∃ c : NativeCall, c.lib.isHip = true ∧ c.lib.isCuda = false ∧
      op.run k N s = callNative N c s := by
  cases op <;> simp [Op.forwards, Op.isStub, Op.isHandWritten] at hop <;>
    simp [Op.run, __PP_FUNC1, __PP_FUNC2, __PP_FUNC, __PP_CTXT_FUNC, __PPRTC_FUNC1, h,
      cu2pp, hip2pp, cuda2pp, nvrtc2pp, hiprtc2pp,
      ppGetErrorName, ppGetErrorString, ppInit, ppDriverGetVersion, ppGetDevice, ppGetDeviceCount,
      ppDeviceGet, ppDeviceGetName, ppDeviceGetAttribute, ppCtxCreate, ppCtxDestroy,
      ppCtxSetCurrent, ppCtxGetCurrent, ppCtxSynchronize, ppDeviceSynchronize, ppCtxGetApiVersion,
      ppModuleLoad, ppModuleLoadData, ppModuleLoadDataEx, ppModuleUnload, ppModuleGetFunction,
      ppModuleGetGlobal, ppMalloc, ppMalloc2, ppFree, ppFree2, ppMemcpy, ppMemcpyHtoD,
      ppMemcpyDtoH, ppMemcpyDtoD, ppMemset, ppMemsetD8, ppMemsetD16, ppMemsetD32,
      ppModuleLaunchKernel, ppGetLastError, pprtcCompileProgram, pprtcCreateProgram,
      pprtcDestroyProgram, pprtcGetProgramLog, pprtcGetProgramLogSize, pprtcGetCode,
      pprtcGetCodeSize, ppStreamCreate] <;>
    (refine ⟨_, ?_, ?_, rfl⟩ <;> rfl)

/-- With an unsupported selection a forwarding operation falls through to its final
`return` and leaves the state as it was. -/
theorem run_forwards_unsupported (k : Header) (N : Native W PA) (op : Op PA) (s : PopState W)
    (hop : op.forwards = true) (hc : s.s_api ≠ Api.API_CUDA) (hh : s.s_api ≠ Api.API_HIP) :
    op.run k N s =
      ((if op.isRtc = true then k.PPRTC_ERROR_INTERNAL_ERROR else k.ppErrorUnknown), s) := by
  cases op <;> simp [Op.forwards, Op.isStub, Op.isHandWritten] at hop <;>
    simp [Op.run, Op.isRtc, ret, __PP_FUNC1, __PP_FUNC2, __PP_FUNC, __PP_CTXT_FUNC,
      __PPRTC_FUNC1, hc, hh,
      ppGetErrorName, ppGetErrorString, ppInit, ppDriverGetVersion, ppGetDevice, ppGetDeviceCount,
      ppDeviceGet, ppDeviceGetName, ppDeviceGetAttribute, ppCtxCreate, ppCtxDestroy,
      ppCtxSetCurrent, ppCtxGetCurrent, ppCtxSynchronize, ppDeviceSynchronize, ppCtxGetApiVersion,
      ppModuleLoad, ppModuleLoadData, ppModuleLoadDataEx, ppModuleUnload, ppModuleGetFunction,
      ppModuleGetGlobal, ppMalloc, ppMalloc2, ppFree, ppFree2, ppMemcpy, ppMemcpyHtoD,
      ppMemcpyDtoH, ppMemcpyDtoD, ppMemset, ppMemsetD8, ppMemsetD16, ppMemsetD32,
      ppModuleLaunchKernel, ppGetLastError, pprtcCompileProgram, pprtcCreateProgram,
      pprtcDestroyProgram, pprtcGetProgramLog, pprtcGetProgramLogSize, pprtcGetCode,
      pprtcGetCodeSize, ppStreamCreate]

/-- A stub returns its constant and leaves the state as it was. -/
theorem run_stub (k : Header) (N : Native W PA) (op : Op PA) (s : PopState W)
    (hop : op.isStub = true) :
    op.run k N s =
      ((if op.isRtc = true then k.PPRTC_ERROR_INTERNAL_ERROR else k.ppErrorUnknown), s) := by
  cases op <;> simp [Op.isStub] at hop <;>
    simp [Op.run, Op.isRtc, ret, resultOnly, ppDeviceComputeCapability, ppDevicePrimaryCtxRetain,
      ppDevicePrimaryCtxRelease, ppDevicePrimaryCtxSetFlags, ppDevicePrimaryCtxGetState,
      ppDevicePrimaryCtxReset, ppMemGetInfo, ppMemAllocPitch, pprtcGetErrorString,
      pprtcAddNameExpression, pprtcGetLoweredName]

/-- A logged call never touches the selection. -/
theorem callNative_s_api (N : Native W PA) (c : NativeCall) (s : PopState W) :
    (callNative N c s).2.s_api = s.s_api := rfl

/-- A logged call appends exactly its own event, carrying the status it returns. -/
theorem callNative_trace (N : Native W PA) (c : NativeCall) (s : PopState W) :
    (callNative N c s).2.trace = s.trace ++ [⟨c, (callNative N c s).1⟩] := rfl

/-- Every operation is a stub, a hand-written one, or a forwarding one. -/
theorem Op.trichotomy (op : Op PA) :
    op.isStub = true ∨ op.isHandWritten = true ∨ op.forwards = true := by
  cases op <;> simp [Op.forwards, Op.isStub, Op.isHandWritten]

/-- No operation writes `s_api`. -/
theorem run_s_api (k : Header) (N : Native W PA) (op : Op PA) (s : PopState W) :
    (op.run k N s).2.s_api = s.s_api := by
  rcases op.trichotomy with h | h | h
  · rw [run_stub k N op s h]
  · cases op <;> simp [Op.isHandWritten] at h
    · simp only [Op.run, resultOnly, ppGetDeviceProperties]
      split
      · split <;> rfl
      · rfl
    · simp only [Op.run, resultOnly, ppPointerGetAttributes]
      split
      · rfl
      · split <;> rfl
  · by_cases hc : s.s_api = Api.API_CUDA
    · obtain ⟨c, -, -, hr⟩ := run_forwards_cuda k N op s h hc
      rw [hr, callNative_s_api]
    · by_cases hh : s.s_api = Api.API_HIP
      · obtain ⟨c, -, -, hr⟩ := run_forwards_hip k N op s h hh
        rw [hr, callNative_s_api]
      · rw [run_forwards_unsupported k N op s h hc hh]

/-- The string left by `strcpy` is the string of the source. -/
theorem cstr_append_nul (l rest : CharBuf) (hl : ∀ x ∈ l, x ≠ 0) :
    cstr (l ++ 0 :: rest) = l := by
  induction l with
  | nil => simp [cstr]
  | cons a t ih =>
    have ha : a ≠ 0 := hl a (List.mem_cons_self a t)
    have ht : ∀ x ∈ t, x ≠ 0 := fun x hx => hl x (List.mem_cons_of_mem a hx)
    have := ih ht
    have hb : (a != 0) = true := by simpa using ha
    simp only [cstr] at this ⊢
    simp [List.takeWhile, hb, this]

/-- No byte of the string of a buffer is NUL. -/
theorem cstr_ne_zero (buf : CharBuf) : ∀ x ∈ cstr buf, x ≠ 0 := by
  intro x hx
  have := List.mem_takeWhile_imp hx
  simpa using this

/-- The string read back after `strcpy(dst, src)` is the string of `src`. -/
theorem cstr_strcpy (dst src : CharBuf) : cstr (strcpy dst src) = cstr src := by
  unfold strcpy
  exact cstr_append_nul _ _ (cstr_ne_zero src)


/-! ## Dispatch to the selected backend -/

/-- C1: an operation built on `__PP_FUNC`, `__PP_FUNC1`, `__PP_FUNC2`, `__PP_CTXT_FUNC` or
`__PPRTC_FUNC1` issues, for any arguments, exactly one native call: under CUDA into a
CUDA-side library (`cu`, `cuda`, `nvrtc`) and none into a HIP-side one, under HIP into a
HIP-side library (`hip`, `hiprtc`) and none into a CUDA-side one. -/
theorem forwarding_op_invokes_selected_backend_only (k : Header) (N : Native W PA) (op : Op PA)
    (s : PopState W) (hop : op.forwards = true) :
    (s.s_api = Api.API_CUDA →
      ∃ c : NativeCall, c.lib.isCuda = true ∧ c.lib.isHip = false ∧
        (op.run k N s).2.trace = s.trace ++ [⟨c, (op.run k N s).1⟩]) ∧
    (s.s_api = Api.API_HIP →
      ∃ c : NativeCall, c.lib.isHip = true ∧ c.lib.isCuda = false ∧
        (op.run k N s).2.trace = s.trace ++ [⟨c, (op.run k N s).1⟩]) := by
  constructor
  · intro h
    obtain ⟨c, h1, h2, hr⟩ := run_forwards_cuda k N op s hop h
    exact ⟨c, h1, h2, by rw [hr]; rfl⟩
  · intro h
    obtain ⟨c, h1, h2, hr⟩ := run_forwards_hip k N op s hop h
    exact ⟨c, h1, h2, by rw [hr]; rfl⟩

/-- `ppMalloc` under CUDA on the sample native side: one call, into a CUDA-side library. -/
theorem forwarding_op_invokes_selected_backend_only_witness :
    (Op.ppMalloc 4096 4 : Op Int).forwards = true ∧
    (stateWith Api.API_CUDA).s_api = Api.API_CUDA ∧
    ∃ c : NativeCall, c.lib.isCuda = true ∧ c.lib.isHip = false ∧
      ((Op.ppMalloc 4096 4 : Op Int).run sampleHeader sampleNative (stateWith Api.API_CUDA)).2.trace =
        (stateWith Api.API_CUDA).trace ++
          [⟨c, ((Op.ppMalloc 4096 4 : Op Int).run sampleHeader sampleNative
            (stateWith Api.API_CUDA)).1⟩] :=
  ⟨rfl, rfl,
    (forwarding_op_invokes_selected_backend_only sampleHeader sampleNative (Op.ppMalloc 4096 4)
      (stateWith Api.API_CUDA) rfl).1 rfl⟩

/-! ## Result codes -/

/-- C2 (as stated, refuted): under CUDA, when `cudaGetDeviceProperties` fails with status
101, `ppGetDeviceProperties` returns `ppErrorUnknown` (999), not 101. -/
theorem ppGetDeviceProperties_cuda_remaps_failure_status :
    ((failingNative 101).cudaGetDeviceProperties 0 (stateWith Api.API_CUDA).world).1.1 = 101 ∧
    (ppGetDeviceProperties sampleHeader (failingNative 101) zeroProp 0
      (stateWith Api.API_CUDA)).1.1 = 999 ∧
    (ppGetDeviceProperties sampleHeader (failingNative 101) zeroProp 0
      (stateWith Api.API_CUDA)).1.1 ≠
      ((failingNative 101).cudaGetDeviceProperties 0 (stateWith Api.API_CUDA).world).1.1 := by
  refine ⟨rfl, ?_, ?_⟩ <;>
    simp [ppGetDeviceProperties, stateWith, failingNative, sampleHeader]

/-- C2 (amended): under a supported backend every operation other than
`ppGetDeviceProperties` under CUDA either is a stub that makes no native call, or makes
exactly one native call and returns a code with the numeric value of the status that call
returned; `ppGetDeviceProperties` under CUDA returns `ppSuccess` when the native status is
`CUDA_SUCCESS` and `ppErrorUnknown` for every other native status. -/
theorem result_is_native_status_except_cuda_properties (k : Header) (N : Native W PA)
    (op : Op PA) (s : PopState W)
    (hs : s.s_api = Api.API_CUDA ∨ s.s_api = Api.API_HIP) :
    (¬ (op.isGetDeviceProperties = true ∧ s.s_api = Api.API_CUDA) →
      (op.isStub = true ∧ (op.run k N s).2 = s) ∨
      ∃ c : NativeCall, (op.run k N s).2.trace = s.trace ++ [⟨c, (op.run k N s).1⟩]) ∧
    (∀ (props : ppDeviceProp) (deviceId : Int), s.s_api = Api.API_CUDA →
      (ppGetDeviceProperties k N props deviceId s).2.trace =
          s.trace ++ [⟨⟨Lib.cuda, "GetDeviceProperties", ints [deviceId]⟩,
            (N.cudaGetDeviceProperties deviceId s.world).1.1⟩] ∧
      (ppGetDeviceProperties k N props deviceId s).1.1 =
        if (N.cudaGetDeviceProperties deviceId s.world).1.1 = k.CUDA_SUCCESS
        then k.ppSuccess else k.ppErrorUnknown) := by
  constructor
  · intro hne
    rcases op.trichotomy with h | h | h
    · exact Or.inl ⟨h, by rw [run_stub k N op s h]⟩
    · right
      cases op <;> simp [Op.isHandWritten] at h
      · rename_i props deviceId
        have hc : s.s_api ≠ Api.API_CUDA := by
          intro hc
          exact hne ⟨rfl, hc⟩
        refine ⟨⟨Lib.hip, "GetDeviceProperties", ints [deviceId]⟩, ?_⟩
        simp [Op.run, resultOnly, ppGetDeviceProperties, hc, hip2pp]
      · rename_i attr dptr
        rcases hs with hc | hh
        · refine ⟨⟨Lib.cu, "PointerGetAttribute",
            ints [k.CU_POINTER_ATTRIBUTE_MEMORY_TYPE, dptr]⟩, ?_⟩
          simp [Op.run, resultOnly, ppPointerGetAttributes, hc, cu2pp]
        · have hc : s.s_api ≠ Api.API_CUDA := by
            rw [hh]
            decide
          refine ⟨⟨Lib.hip, "PointerGetAttributes", ints [dptr]⟩, ?_⟩
          simp [Op.run, resultOnly, ppPointerGetAttributes, hh, hip2pp]
    · right
      rcases hs with hc | hh
      · obtain ⟨c, -, -, hr⟩ := run_forwards_cuda k N op s h hc
        exact ⟨c, by rw [hr]; rfl⟩
      · obtain ⟨c, -, -, hr⟩ := run_forwards_hip k N op s h hh
        exact ⟨c, by rw [hr]; rfl⟩
  · intro props deviceId hc
    simp only [ppGetDeviceProperties, hc, if_true]
    by_cases he : (N.cudaGetDeviceProperties deviceId s.world).1.1 = k.CUDA_SUCCESS
    · simp [he]
    · simp [he]

/-- On the sample native side `ppMemcpyDtoH` under HIP makes one call and returns its
status, and `ppGetDeviceProperties` under CUDA returns `ppSuccess` for status 0. -/
theorem result_is_native_status_except_cuda_properties_witness :
    ((stateWith Api.API_HIP).s_api = Api.API_CUDA ∨ (stateWith Api.API_HIP).s_api = Api.API_HIP) ∧
    ((Op.ppMemcpyDtoH 1 2 4 : Op Int).isStub = true ∧
        ((Op.ppMemcpyDtoH 1 2 4 : Op Int).run sampleHeader sampleNative (stateWith Api.API_HIP)).2 =
          stateWith Api.API_HIP ∨
      ∃ c : NativeCall,
        ((Op.ppMemcpyDtoH 1 2 4 : Op Int).run sampleHeader sampleNative (stateWith Api.API_HIP)).2.trace =
          (stateWith Api.API_HIP).trace ++
            [⟨c, ((Op.ppMemcpyDtoH 1 2 4 : Op Int).run sampleHeader sampleNative
              (stateWith Api.API_HIP)).1⟩]) :=
  ⟨Or.inr rfl,
    (result_is_native_status_except_cuda_properties sampleHeader sampleNative (Op.ppMemcpyDtoH 1 2 4)
      (stateWith Api.API_HIP) (Or.inr rfl)).1 (by simp [Op.isGetDeviceProperties])⟩

/-! ## Unsupported selection -/

/-- C3 (the code at the failing input): with `API_AUTOMATIC` selected,
`ppGetDeviceProperties` calls `hipGetDeviceProperties` and returns its status (0 on the
sample native side) instead of `ppErrorUnknown` (999). -/
theorem ppGetDeviceProperties_unsupported_backend_calls_hip :
    (ppGetDeviceProperties sampleHeader sampleNative zeroProp 0
      (stateWith Api.API_AUTOMATIC)).1.1 = 0 ∧
    (ppGetDeviceProperties sampleHeader sampleNative zeroProp 0
      (stateWith Api.API_AUTOMATIC)).2.trace =
        [⟨⟨Lib.hip, "GetDeviceProperties", [Arg.int 0]⟩, 0⟩] ∧
    sampleHeader.ppErrorUnknown = 999 := by
  refine ⟨?_, ?_, rfl⟩ <;>
    simp [ppGetDeviceProperties, stateWith, sampleNative, hip2pp, ints]

/-! ## Backend selector -/

/-- C4: `ppInitialize(api, flags)` returns the status of `cuewInit(CUEW_INIT_CUDA |
CUEW_INIT_NVRTC)` when `api` is CUDA and of `hipewInit(HIPEW_INIT_HIP)` when it is HIP,
that loader call being the only call made; for any other `api` it returns
`PP_ERROR_OPEN_FAILED` and calls nothing. -/
theorem ppInitialize_reports_loader_status (k : Header) (N : Native W PA) (flags : Nat)
    (s : PopState W) :
    ((ppInitialize k N Api.API_CUDA flags s).1 =
        (N.call ⟨Lib.cuew, "Init",
          [Arg.int ((k.CUEW_INIT_CUDA ||| k.CUEW_INIT_NVRTC : Nat) : Int)]⟩ s.world).1 ∧
      (ppInitialize k N Api.API_CUDA flags s).2.trace =
        s.trace ++ [⟨⟨Lib.cuew, "Init",
          [Arg.int ((k.CUEW_INIT_CUDA ||| k.CUEW_INIT_NVRTC : Nat) : Int)]⟩,
          (ppInitialize k N Api.API_CUDA flags s).1⟩]) ∧
    ((ppInitialize k N Api.API_HIP flags s).1 =
        (N.call ⟨Lib.hipew, "Init", [Arg.int (k.HIPEW_INIT_HIP : Int)]⟩ s.world).1 ∧
      (ppInitialize k N Api.API_HIP flags s).2.trace =
        s.trace ++ [⟨⟨Lib.hipew, "Init", [Arg.int (k.HIPEW_INIT_HIP : Int)]⟩,
          (ppInitialize k N Api.API_HIP flags s).1⟩]) ∧
    (∀ api : Api, api ≠ Api.API_CUDA → api ≠ Api.API_HIP →
      (ppInitialize k N api flags s).1 = k.PP_ERROR_OPEN_FAILED ∧
      (ppInitialize k N api flags s).2.trace = s.trace ∧
      (ppInitialize k N api flags s).2.world = s.world) := by
  refine ⟨⟨rfl, rfl⟩, ⟨rfl, rfl⟩, ?_⟩
  intro api hc hh
  simp [ppInitialize, hc, hh]

/-- With `API_AUTOMATIC` requested, `ppInitialize` returns `PP_ERROR_OPEN_FAILED` (-1) and
the log stays empty. -/
theorem ppInitialize_reports_loader_status_witness :
    Api.API_AUTOMATIC ≠ Api.API_CUDA ∧ Api.API_AUTOMATIC ≠ Api.API_HIP ∧
    (ppInitialize sampleHeader sampleNative Api.API_AUTOMATIC 0 (stateWith Api.API_HIP)).1 = -1 ∧
    (ppInitialize sampleHeader sampleNative Api.API_AUTOMATIC 0 (stateWith Api.API_HIP)).2.trace = [] ∧
    (ppInitialize sampleHeader sampleNative Api.API_AUTOMATIC 0 (stateWith Api.API_HIP)).2.world = 0 :=
  ⟨by decide, by decide,
    (ppInitialize_reports_loader_status sampleHeader sampleNative 0 (stateWith Api.API_HIP)).2.2
      Api.API_AUTOMATIC (by decide) (by decide)⟩

/-- C5: for every `api`, every `flags` and every prior state, `ppGetCurAPI` called after
`ppInitialize(api, flags)` returns `api`, whatever status the initialisation returned; a
second `ppInitialize` overwrites the selection of the first. -/
theorem ppGetCurAPI_after_ppInitialize (k : Header) (N : Native W PA) (api api2 : Api)
    (flags flags2 flags3 : Nat) (s : PopState W) :
    (ppGetCurAPI flags2 (ppInitialize k N api flags s).2).1 = api ∧
    (ppGetCurAPI flags2
      (ppInitialize k N api2 flags3 (ppInitialize k N api flags s).2).2).1 = api2 := by
  have key : ∀ (a : Api) (f : Nat) (t : PopState W), (ppInitialize k N a f t).2.s_api = a := by
    intro a f t
    unfold ppInitialize
    by_cases hc : a = Api.API_CUDA
    · simp [hc, callNative]
    · by_cases hh : a = Api.API_HIP
      · simp [hh, callNative]
      · simp [hc, hh]
  exact ⟨key api flags s, key api2 flags3 _⟩

/-- C6: `ppGetCurAPI` and every operation leave the selection as it was, so in any
sequence of `ppGetCurAPI` calls (with any flags) and operations, without `ppInitialize`,
every `ppGetCurAPI` call returns the selection the sequence started with. -/
theorem selection_changed_by_ppInitialize_only (k : Header) (N : Native W PA)
    (steps : List (Step PA)) (s : PopState W) :
    (∀ flags : Nat, (ppGetCurAPI flags s).2 = s) ∧
    (∀ op : Op PA, (op.run k N s).2.s_api = s.s_api) ∧
    (runSteps k N steps s).1 = List.replicate (numReads steps) s.s_api ∧
    (runSteps k N steps s).2.s_api = s.s_api := by
  refine ⟨fun _ => rfl, fun op => run_s_api k N op s, ?_⟩
  induction steps generalizing s with
  | nil => exact ⟨rfl, rfl⟩
  | cons st rest ih =>
    cases st with
    | getCurAPI flags =>
      have h := ih s
      simp only [runSteps, ppGetCurAPI, numReads, List.replicate_succ]
      exact ⟨by rw [h.1], h.2⟩
    | op o =>
      have h := ih (o.run k N s).2
      simp only [runSteps, numReads]
      rw [run_s_api] at h
      exact h

/-! ## Stubs -/

/-- C7: each of the eight stubbed operations returns `ppErrorUnknown` for every selection
and every argument and leaves the whole state as it was: no native call is logged and the
world, which holds what the output parameters point at, is the same. -/
theorem stubs_return_unknown_untouched (k : Header) (s : PopState W) :
    (∀ major minor dev : Int, ppDeviceComputeCapability k major minor dev s = (k.ppErrorUnknown, s)) ∧
    (∀ pctx dev : Int, ppDevicePrimaryCtxRetain k pctx dev s = (k.ppErrorUnknown, s)) ∧
    (∀ dev : Int, ppDevicePrimaryCtxRelease k dev s = (k.ppErrorUnknown, s)) ∧
    (∀ dev flags : Int, ppDevicePrimaryCtxSetFlags k dev flags s = (k.ppErrorUnknown, s)) ∧
    (∀ dev flags active : Int,
      ppDevicePrimaryCtxGetState k dev flags active s = (k.ppErrorUnknown, s)) ∧
    (∀ dev : Int, ppDevicePrimaryCtxReset k dev s = (k.ppErrorUnknown, s)) ∧
    (∀ free total : Int, ppMemGetInfo k free total s = (k.ppErrorUnknown, s)) ∧
    (∀ dptr pPitch WidthInBytes Height ElementSizeBytes : Int,
      ppMemAllocPitch k dptr pPitch WidthInBytes Height ElementSizeBytes s =
        (k.ppErrorUnknown, s)) :=
  ⟨fun _ _ _ => rfl, fun _ _ => rfl, fun _ => rfl, fun _ _ => rfl, fun _ _ _ => rfl,
    fun _ => rfl, fun _ _ => rfl, fun _ _ _ _ _ => rfl⟩

/-! ## Lowered names -/

/-- C8 (the code): for every selection, program and expression `pprtcAddNameExpression`
and `pprtcGetLoweredName` return `PPRTC_ERROR_INTERNAL_ERROR` (11, while success is 0),
make no native call, and `pprtcGetLoweredName` leaves the caller's `lowered_name` as it
was, so a null pointer stays null. -/
theorem pprtc_lowered_name_always_fails (k : Header) (s : PopState W)
    (prog name_expression lowered_name : Int) :
    pprtcAddNameExpression k prog name_expression s = (k.PPRTC_ERROR_INTERNAL_ERROR, s) ∧
    pprtcGetLoweredName k prog name_expression lowered_name s =
      ((k.PPRTC_ERROR_INTERNAL_ERROR, lowered_name), s) ∧
    (pprtcGetLoweredName sampleHeader 1 2 0 (stateWith Api.API_CUDA)).1 = (11, 0) ∧
    (pprtcGetLoweredName sampleHeader 1 2 0 (stateWith Api.API_HIP)).1 = (11, 0) ∧
    sampleHeader.PPRTC_SUCCESS = 0 :=
  ⟨rfl, rfl, rfl, rfl, rfl⟩

/-! ## Device properties -/

/-- C9: under CUDA, when the native query succeeds with record `p`, `ppGetDeviceProperties`
returns `ppSuccess` and the caller's record then holds the name string of `p`, its
`totalGlobalMem`, the three elements of `maxThreadsDim` and of `maxGridSize`, and
`maxThreadsPerBlock` (so a non-empty name stays non-empty and a positive total memory stays
positive); under HIP the caller's record is what the native query is given and what it
leaves, and the native status is returned. -/
theorem ppGetDeviceProperties_fills_record (k : Header) (N : Native W PA) (props : ppDeviceProp)
    (deviceId : Int) (s : PopState W) :
    (s.s_api = Api.API_CUDA →
      (N.cudaGetDeviceProperties deviceId s.world).1.1 = k.CUDA_SUCCESS →
      (ppGetDeviceProperties k N props deviceId s).1.1 = k.ppSuccess ∧
      cstr (ppGetDeviceProperties k N props deviceId s).1.2.name =
        cstr (N.cudaGetDeviceProperties deviceId s.world).1.2.name ∧
      (ppGetDeviceProperties k N props deviceId s).1.2.totalGlobalMem =
        (N.cudaGetDeviceProperties deviceId s.world).1.2.totalGlobalMem ∧
      (∀ i : Fin 3, (ppGetDeviceProperties k N props deviceId s).1.2.maxThreadsDim i =
        (N.cudaGetDeviceProperties deviceId s.world).1.2.maxThreadsDim i) ∧
      (∀ i : Fin 3, (ppGetDeviceProperties k N props deviceId s).1.2.maxGridSize i =
        (N.cudaGetDeviceProperties deviceId s.world).1.2.maxGridSize i) ∧
      (ppGetDeviceProperties k N props deviceId s).1.2.maxThreadsPerBlock =
        (N.cudaGetDeviceProperties deviceId s.world).1.2.maxThreadsPerBlock ∧
      (cstr (N.cudaGetDeviceProperties deviceId s.world).1.2.name ≠ [] →
        cstr (ppGetDeviceProperties k N props deviceId s).1.2.name ≠ []) ∧
      (0 < (N.cudaGetDeviceProperties deviceId s.world).1.2.totalGlobalMem →
        0 < (ppGetDeviceProperties k N props deviceId s).1.2.totalGlobalMem)) ∧
    (s.s_api = Api.API_HIP →
      (ppGetDeviceProperties k N props deviceId s).1 =
        (N.hipGetDeviceProperties props deviceId s.world).1 ∧
      (ppGetDeviceProperties k N props deviceId s).2.world =
        (N.hipGetDeviceProperties props deviceId s.world).2 ∧
      (ppGetDeviceProperties k N props deviceId s).2.trace =
        s.trace ++ [⟨⟨Lib.hip, "GetDeviceProperties", ints [deviceId]⟩,
          (N.hipGetDeviceProperties props deviceId s.world).1.1⟩]) := by
  constructor
  · intro hc he
    have hname : cstr (ppGetDeviceProperties k N props deviceId s).1.2.name =
        cstr (N.cudaGetDeviceProperties deviceId s.world).1.2.name := by
      simp only [ppGetDeviceProperties, hc, he, if_true, ne_eq, not_true_eq_false, if_false]
      exact cstr_strcpy _ _
    have hmem : (ppGetDeviceProperties k N props deviceId s).1.2.totalGlobalMem =
        (N.cudaGetDeviceProperties deviceId s.world).1.2.totalGlobalMem := by
      simp [ppGetDeviceProperties, hc, he]
    refine ⟨?_, hname, hmem, ?_, ?_, ?_, ?_, ?_⟩
    · simp [ppGetDeviceProperties, hc, he]
    · intro i
      simp [ppGetDeviceProperties, hc, he, memcpyInt, i.isLt]
    · intro i
      simp [ppGetDeviceProperties, hc, he, memcpyInt, i.isLt]
    · simp [ppGetDeviceProperties, hc, he]
    · intro h
      rw [hname]
      exact h
    · intro h
      rw [hmem]
      exact h
  · intro hh
    have hc : s.s_api ≠ Api.API_CUDA := by
      rw [hh]
      decide
    simp [ppGetDeviceProperties, hc, hip2pp]

/-- On the sample native side under CUDA the caller's cleared record ends up named "GPU"
with 8 GiB of memory and 1024 threads per block. -/
theorem ppGetDeviceProperties_fills_record_witness :
    (stateWith Api.API_CUDA).s_api = Api.API_CUDA ∧
    (sampleNative.cudaGetDeviceProperties 0 (stateWith Api.API_CUDA).world).1.1 =
      sampleHeader.CUDA_SUCCESS ∧
    (ppGetDeviceProperties sampleHeader sampleNative zeroProp 0 (stateWith Api.API_CUDA)).1.1 = 0 ∧
    cstr (ppGetDeviceProperties sampleHeader sampleNative zeroProp 0
      (stateWith Api.API_CUDA)).1.2.name = [71, 80, 85] ∧
    (ppGetDeviceProperties sampleHeader sampleNative zeroProp 0
      (stateWith Api.API_CUDA)).1.2.totalGlobalMem = 8589934592 :=
  have h := (ppGetDeviceProperties_fills_record sampleHeader sampleNative zeroProp 0
    (stateWith Api.API_CUDA)).1 rfl rfl
  ⟨rfl, rfl, h.1, h.2.1.trans (by decide), h.2.2.1⟩

/-! ## Pointer attributes -/

/-- C10 (the code at the failing input): under CUDA, with a native query that succeeds
and reports memory type 2, `ppPointerGetAttributes` returns success and the caller's
record is what it was (0); under HIP the record is the one the native query left (2). -/
theorem ppPointerGetAttributes_cuda_leaves_attr :
    (sampleNative.cuPointerGetAttribute sampleHeader.CU_POINTER_ATTRIBUTE_MEMORY_TYPE 4096
      (stateWith Api.API_CUDA).world).1 = (0, 2) ∧
    (ppPointerGetAttributes sampleHeader sampleNative 0 4096 (stateWith Api.API_CUDA)).1 = (0, 0) ∧
    (ppPointerGetAttributes sampleHeader sampleNative 0 4096 (stateWith Api.API_HIP)).1 = (0, 2) := by
  refine ⟨rfl, ?_, ?_⟩ <;>
    simp [ppPointerGetAttributes, stateWith, sampleNative, cu2pp, hip2pp]


/-! ## Error lookup -/

/-- C11: under each supported backend `ppGetErrorString(e, pStr)` and `ppGetErrorName(e, pStr)`
make one call of the backend's own lookup (`cuGetErrorString`/`cuGetErrorName` under CUDA,
`hipGetErrorString`/`hipGetErrorName` under HIP) with the code of the numeric value of `e`
and the caller's `pStr`, return the status of that call unchanged and leave the world, which
holds what `pStr` points at, as the lookup left it; so whatever string the lookup produces
for a code is what the caller finds. -/
theorem error_lookup_forwards_to_backend (k : Header) (N : Native W PA) (e pStr : Int)
    (s : PopState W) :
    (s.s_api = Api.API_CUDA →
      ppGetErrorString k N e pStr s =
        ((N.call ⟨Lib.cu, "GetErrorString", [Arg.int e, Arg.int pStr]⟩ s.world).1,
          { s with
            world := (N.call ⟨Lib.cu, "GetErrorString", [Arg.int e, Arg.int pStr]⟩ s.world).2,
            trace := s.trace ++ [⟨⟨Lib.cu, "GetErrorString", [Arg.int e, Arg.int pStr]⟩,
              (N.call ⟨Lib.cu, "GetErrorString", [Arg.int e, Arg.int pStr]⟩ s.world).1⟩] }) ∧
      ppGetErrorName k N e pStr s =
        ((N.call ⟨Lib.cu, "GetErrorName", [Arg.int e, Arg.int pStr]⟩ s.world).1,
          { s with
            world := (N.call ⟨Lib.cu, "GetErrorName", [Arg.int e, Arg.int pStr]⟩ s.world).2,
            trace := s.trace ++ [⟨⟨Lib.cu, "GetErrorName", [Arg.int e, Arg.int pStr]⟩,
              (N.call ⟨Lib.cu, "GetErrorName", [Arg.int e, Arg.int pStr]⟩ s.world).1⟩] })) ∧
    (s.s_api = Api.API_HIP →
      ppGetErrorString k N e pStr s =
        ((N.call ⟨Lib.hip, "GetErrorString", [Arg.int e, Arg.int pStr]⟩ s.world).1,
          { s with
            world := (N.call ⟨Lib.hip, "GetErrorString", [Arg.int e, Arg.int pStr]⟩ s.world).2,
            trace := s.trace ++ [⟨⟨Lib.hip, "GetErrorString", [Arg.int e, Arg.int pStr]⟩,
              (N.call ⟨Lib.hip, "GetErrorString", [Arg.int e, Arg.int pStr]⟩ s.world).1⟩] }) ∧
      ppGetErrorName k N e pStr s =
        ((N.call ⟨Lib.hip, "GetErrorName", [Arg.int e, Arg.int pStr]⟩ s.world).1,
          { s with
            world := (N.call ⟨Lib.hip, "GetErrorName", [Arg.int e, Arg.int pStr]⟩ s.world).2,
            trace := s.trace ++ [⟨⟨Lib.hip, "GetErrorName", [Arg.int e, Arg.int pStr]⟩,
              (N.call ⟨Lib.hip, "GetErrorName", [Arg.int e, Arg.int pStr]⟩ s.world).1⟩] })) := by
  constructor
  · intro h
    simp [ppGetErrorString, ppGetErrorName, __PP_FUNC1, callNative, cu2pp, ints, h]
  · intro h
    have hc : s.s_api ≠ Api.API_CUDA := by
      rw [h]
      decide
    simp [ppGetErrorString, ppGetErrorName, __PP_FUNC1, callNative, hip2pp, ints, h]

/-- On the sample native side under CUDA, `ppGetErrorString` for code 1 (invalid value)
returns the lookup's status 0 and logs the one call `cuGetErrorString(1, pStr)`. -/
theorem error_lookup_forwards_to_backend_witness :
    (stateWith Api.API_CUDA).s_api = Api.API_CUDA ∧
    (ppGetErrorString sampleHeader sampleNative 1 4096 (stateWith Api.API_CUDA)).1 = 0 ∧
    (ppGetErrorString sampleHeader sampleNative 1 4096 (stateWith Api.API_CUDA)).2.trace =
      [⟨⟨Lib.cu, "GetErrorString", [Arg.int 1, Arg.int 4096]⟩, 0⟩] :=
  have h := ((error_lookup_forwards_to_backend sampleHeader sampleNative 1 4096
    (stateWith Api.API_CUDA)).1 rfl).1
  ⟨rfl, by rw [h]; rfl, by rw [h]; rfl⟩

/-! ## Allocation families -/

/-- C12: under CUDA `ppMalloc`/`ppFree` are the calls `cuMemAlloc(dptr, bytesize)` /
`cuMemFree(dptr)` and `ppMalloc2`/`ppFree2` the calls `cudaMalloc(dptr, bytesize)` /
`cudaFree(dptr)`; under HIP both families are `hipMalloc(dptr, bytesize)` / `hipFree(dptr)`,
so there `ppMalloc2` equals `ppMalloc` and `ppFree2` equals `ppFree` on every input. Pointer
and size are passed unchanged. -/
theorem malloc_free_families_routed (k : Header) (N : Native W PA) (dptr bytesize : Int)
    (s : PopState W) :
    (s.s_api = Api.API_CUDA →
      ppMalloc k N dptr bytesize s =
        callNative N ⟨Lib.cu, "MemAlloc", [Arg.int dptr, Arg.int bytesize]⟩ s ∧
      ppFree k N dptr s = callNative N ⟨Lib.cu, "MemFree", [Arg.int dptr]⟩ s ∧
      ppMalloc2 k N dptr bytesize s =
        callNative N ⟨Lib.cuda, "Malloc", [Arg.int dptr, Arg.int bytesize]⟩ s ∧
      ppFree2 k N dptr s = callNative N ⟨Lib.cuda, "Free", [Arg.int dptr]⟩ s) ∧
    (s.s_api = Api.API_HIP →
      ppMalloc k N dptr bytesize s =
        callNative N ⟨Lib.hip, "Malloc", [Arg.int dptr, Arg.int bytesize]⟩ s ∧
      ppFree k N dptr s = callNative N ⟨Lib.hip, "Free", [Arg.int dptr]⟩ s ∧
      ppMalloc2 k N dptr bytesize s = ppMalloc k N dptr bytesize s ∧
      ppFree2 k N dptr s = ppFree k N dptr s) := by
  constructor
  · intro h
    simp [ppMalloc, ppFree, ppMalloc2, ppFree2, __PP_FUNC1, __PP_FUNC2, cu2pp, cuda2pp, ints, h]
  · intro h
    have hc : s.s_api ≠ Api.API_CUDA := by
      rw [h]
      decide
    simp [ppMalloc, ppFree, ppMalloc2, ppFree2, __PP_FUNC1, __PP_FUNC2, hip2pp, ints, h]

/-- On the sample native side under CUDA, `ppMalloc2(4096, 4)` logs the one call
`cudaMalloc(4096, 4)` and `ppMalloc(4096, 4)` the one call `cuMemAlloc(4096, 4)`. -/
theorem malloc_free_families_routed_witness :
    (stateWith Api.API_CUDA).s_api = Api.API_CUDA ∧
    (ppMalloc2 sampleHeader sampleNative 4096 4 (stateWith Api.API_CUDA)).2.trace =
      [⟨⟨Lib.cuda, "Malloc", [Arg.int 4096, Arg.int 4]⟩, 0⟩] ∧
    (ppMalloc sampleHeader sampleNative 4096 4 (stateWith Api.API_CUDA)).2.trace =
      [⟨⟨Lib.cu, "MemAlloc", [Arg.int 4096, Arg.int 4]⟩, 0⟩] :=
  have h := (malloc_free_families_routed sampleHeader sampleNative 4096 4
    (stateWith Api.API_CUDA)).1 rfl
  ⟨rfl, by rw [h.2.2.1]; rfl, by rw [h.1]; rfl⟩

/-! ## Kernel launch -/

/-- C13: under CUDA `ppModuleLaunchKernel` is the call `cuLaunchKernel` and under HIP the
call `hipModuleLaunchKernel`, in both cases with the function handle, `gridDimX`, `gridDimY`,
`gridDimZ`, `blockDimX`, `blockDimY`, `blockDimZ`, `sharedMemBytes`, the stream handle,
`kernelParams` and `extra` as the eleven arguments in that order, each with its value
unchanged; the native status is the result. -/
theorem launch_kernel_arguments_in_place (k : Header) (N : Native W PA)
    (f gridDimX gridDimY gridDimZ blockDimX blockDimY blockDimZ sharedMemBytes hStream
      kernelParams extra : Int) (s : PopState W) :
    (s.s_api = Api.API_CUDA →
      ppModuleLaunchKernel k N f gridDimX gridDimY gridDimZ blockDimX blockDimY blockDimZ
          sharedMemBytes hStream kernelParams extra s =
        callNative N ⟨Lib.cu, "LaunchKernel",
          [Arg.int f, Arg.int gridDimX, Arg.int gridDimY, Arg.int gridDimZ, Arg.int blockDimX,
            Arg.int blockDimY, Arg.int blockDimZ, Arg.int sharedMemBytes, Arg.int hStream,
            Arg.int kernelParams, Arg.int extra]⟩ s) ∧
    (s.s_api = Api.API_HIP →
      ppModuleLaunchKernel k N f gridDimX gridDimY gridDimZ blockDimX blockDimY blockDimZ
          sharedMemBytes hStream kernelParams extra s =
        callNative N ⟨Lib.hip, "ModuleLaunchKernel",
          [Arg.int f, Arg.int gridDimX, Arg.int gridDimY, Arg.int gridDimZ, Arg.int blockDimX,
            Arg.int blockDimY, Arg.int blockDimZ, Arg.int sharedMemBytes, Arg.int hStream,
            Arg.int kernelParams, Arg.int extra]⟩ s) := by
  constructor
  · intro h
    simp [ppModuleLaunchKernel, __PP_FUNC1, cu2pp, ints, h]
  · intro h
    have hc : s.s_api ≠ Api.API_CUDA := by
      rw [h]
      decide
    simp [ppModuleLaunchKernel, __PP_FUNC1, hip2pp, ints, h]

/-- On the sample native side under HIP a launch with grid (1, 2, 3) and block (64, 5, 6)
logs `hipModuleLaunchKernel` with the eleven values in their places. -/
theorem launch_kernel_arguments_in_place_witness :
    (stateWith Api.API_HIP).s_api = Api.API_HIP ∧
    (ppModuleLaunchKernel sampleHeader sampleNative 7 1 2 3 64 5 6 128 9 10 11
      (stateWith Api.API_HIP)).2.trace =
      [⟨⟨Lib.hip, "ModuleLaunchKernel",
        [Arg.int 7, Arg.int 1, Arg.int 2, Arg.int 3, Arg.int 64, Arg.int 5, Arg.int 6,
          Arg.int 128, Arg.int 9, Arg.int 10, Arg.int 11]⟩, 0⟩] :=
  have h := (launch_kernel_arguments_in_place sampleHeader sampleNative 7 1 2 3 64 5 6 128 9 10 11
    (stateWith Api.API_HIP)).2 rfl
  ⟨rfl, by rw [h]; rfl⟩

/-! ## JIT options -/

/-- C14: under CUDA `ppModuleLoadDataEx` is the call `cuModuleLoadDataEx` and under HIP the
call `hipModuleLoadDataEx`, given `numOptions` unchanged, the option array reinterpreted as
the backend's option enumeration (each key keeps its numeric value and its position) and the
value array unchanged, so the native call sees the same options in the same order, each
still next to its own value. -/
theorem load_data_ex_options_in_order (k : Header) (N : Native W PA)
    (module image numOptions : Int) (options optionValues : List Int) (s : PopState W) :
    (s.s_api = Api.API_CUDA →
      ppModuleLoadDataEx k N module image numOptions options optionValues s =
        callNative N ⟨Lib.cu, "ModuleLoadDataEx",
          [Arg.int module, Arg.int image, Arg.int numOptions, Arg.arr options,
            Arg.arr optionValues]⟩ s) ∧
    (s.s_api = Api.API_HIP →
      ppModuleLoadDataEx k N module image numOptions options optionValues s =
        callNative N ⟨Lib.hip, "ModuleLoadDataEx",
          [Arg.int module, Arg.int image, Arg.int numOptions, Arg.arr options,
            Arg.arr optionValues]⟩ s) := by
  constructor
  · intro h
    simp [ppModuleLoadDataEx, __PP_FUNC1, cu2pp, h]
  · intro h
    have hc : s.s_api ≠ Api.API_CUDA := by
      rw [h]
      decide
    simp [ppModuleLoadDataEx, __PP_FUNC1, hip2pp, h]

/-- On the sample native side under CUDA, three options 2, 3, 4 with values 10, 20, 30
reach `cuModuleLoadDataEx` as the count 3 and the same two arrays. -/
theorem load_data_ex_options_in_order_witness :
    (stateWith Api.API_CUDA).s_api = Api.API_CUDA ∧
    (ppModuleLoadDataEx sampleHeader sampleNative 1 2 3 [2, 3, 4] [10, 20, 30]
      (stateWith Api.API_CUDA)).2.trace =
      [⟨⟨Lib.cu, "ModuleLoadDataEx",
        [Arg.int 1, Arg.int 2, Arg.int 3, Arg.arr [2, 3, 4], Arg.arr [10, 20, 30]]⟩, 0⟩] :=
  have h := (load_data_ex_options_in_order sampleHeader sampleNative 1 2 3 [2, 3, 4] [10, 20, 30]
    (stateWith Api.API_CUDA)).1 rfl
  ⟨rfl, by rw [h]; rfl⟩

/-! ## Enumeration arguments -/

/-- C15: for every attribute identifier `attrib`, `ppDeviceGetAttribute` hands the native
query (`cuDeviceGetAttribute` under CUDA, `hipDeviceGetAttribute` under HIP) the attribute of
the same integer value, and for every copy kind `kind`, `ppMemcpy` hands the native copy
(`cudaMemcpy` under CUDA, `hipMemcpy` under HIP) the kind of the same integer value. -/
theorem enum_arguments_keep_value (k : Header) (N : Native W PA)
    (pi attrib dev dstDevice srcHost ByteCount kind : Int) (s : PopState W) :
    (s.s_api = Api.API_CUDA →
      ppDeviceGetAttribute k N pi attrib dev s =
        callNative N ⟨Lib.cu, "DeviceGetAttribute", [Arg.int pi, Arg.int attrib, Arg.int dev]⟩ s ∧
      ppMemcpy k N dstDevice srcHost ByteCount kind s =
        callNative N ⟨Lib.cuda, "Memcpy",
          [Arg.int dstDevice, Arg.int srcHost, Arg.int ByteCount, Arg.int kind]⟩ s) ∧
    (s.s_api = Api.API_HIP →
      ppDeviceGetAttribute k N pi attrib dev s =
        callNative N ⟨Lib.hip, "DeviceGetAttribute", [Arg.int pi, Arg.int attrib, Arg.int dev]⟩ s ∧
      ppMemcpy k N dstDevice srcHost ByteCount kind s =
        callNative N ⟨Lib.hip, "Memcpy",
          [Arg.int dstDevice, Arg.int srcHost, Arg.int ByteCount, Arg.int kind]⟩ s) := by
  constructor
  · intro h
    simp [ppDeviceGetAttribute, ppMemcpy, __PP_FUNC1, __PP_FUNC2, cu2pp, cuda2pp, ints, h]
  · intro h
    have hc : s.s_api ≠ Api.API_CUDA := by
      rw [h]
      decide
    simp [ppDeviceGetAttribute, ppMemcpy, __PP_FUNC1, __PP_FUNC2, hip2pp, ints, h]

/-- On the sample native side under HIP, attribute 16 reaches `hipDeviceGetAttribute` as 16
and copy kind 2 reaches `hipMemcpy` as 2. -/
theorem enum_arguments_keep_value_witness :
    (stateWith Api.API_HIP).s_api = Api.API_HIP ∧
    (ppDeviceGetAttribute sampleHeader sampleNative 4096 16 0 (stateWith Api.API_HIP)).2.trace =
      [⟨⟨Lib.hip, "DeviceGetAttribute", [Arg.int 4096, Arg.int 16, Arg.int 0]⟩, 0⟩] ∧
    (ppMemcpy sampleHeader sampleNative 1 2 4 2 (stateWith Api.API_HIP)).2.trace =
      [⟨⟨Lib.hip, "Memcpy", [Arg.int 1, Arg.int 2, Arg.int 4, Arg.int 2]⟩, 0⟩] :=
  have h := (enum_arguments_keep_value sampleHeader sampleNative 4096 16 0 1 2 4 2
    (stateWith Api.API_HIP)).2 rfl
  ⟨rfl, by rw [h.1]; rfl, by rw [h.2]; rfl⟩

/-! ## Compiled code -/

/-- C16: `pprtcGetCode` and `pprtcGetCodeSize` go to the same artefact of the same program:
under CUDA they are the calls `nvrtcGetPTX(prog, code)` and `nvrtcGetPTXSize(prog,
codeSizeRet)`, under HIP the calls `hiprtcGetCode(prog, code)` and `hiprtcGetCodeSize(prog,
codeSizeRet)`; each returns the native status unchanged. -/
theorem code_and_size_same_artefact (k : Header) (N : Native W PA)
    (prog code codeSizeRet : Int) (s : PopState W) :
    (s.s_api = Api.API_CUDA →
      pprtcGetCode k N prog code s =
        callNative N ⟨Lib.nvrtc, "GetPTX", [Arg.int prog, Arg.int code]⟩ s ∧
      pprtcGetCodeSize k N prog codeSizeRet s =
        callNative N ⟨Lib.nvrtc, "GetPTXSize", [Arg.int prog, Arg.int codeSizeRet]⟩ s) ∧
    (s.s_api = Api.API_HIP →
      pprtcGetCode k N prog code s =
        callNative N ⟨Lib.hiprtc, "GetCode", [Arg.int prog, Arg.int code]⟩ s ∧
      pprtcGetCodeSize k N prog codeSizeRet s =
        callNative N ⟨Lib.hiprtc, "GetCodeSize", [Arg.int prog, Arg.int codeSizeRet]⟩ s) := by
  constructor
  · intro h
    simp [pprtcGetCode, pprtcGetCodeSize, __PPRTC_FUNC1, nvrtc2pp, ints, h]
  · intro h
    have hc : s.s_api ≠ Api.API_CUDA := by
      rw [h]
      decide
    simp [pprtcGetCode, pprtcGetCodeSize, __PPRTC_FUNC1, hiprtc2pp, ints, h]

/-- On the sample native side under CUDA the size query is `nvrtcGetPTXSize` and the code
query `nvrtcGetPTX`, both on program 5. -/
theorem code_and_size_same_artefact_witness :
    (stateWith Api.API_CUDA).s_api = Api.API_CUDA ∧
    (pprtcGetCodeSize sampleHeader sampleNative 5 4096 (stateWith Api.API_CUDA)).2.trace =
      [⟨⟨Lib.nvrtc, "GetPTXSize", [Arg.int 5, Arg.int 4096]⟩, 0⟩] ∧
    (pprtcGetCode sampleHeader sampleNative 5 8192 (stateWith Api.API_CUDA)).2.trace =
      [⟨⟨Lib.nvrtc, "GetPTX", [Arg.int 5, Arg.int 8192]⟩, 0⟩] :=
  have h1 := (code_and_size_same_artefact sampleHeader sampleNative 5 8192 4096
    (stateWith Api.API_CUDA)).1 rfl
  ⟨rfl, by rw [h1.2]; rfl, by rw [h1.1]; rfl⟩

/-! ## Loader failure and unsupported backend -/

/-- C17 (as stated, refuted): when `cuewInit` fails with status -1, `ppInitialize(API_CUDA)`
returns -1, the very status `ppInitialize(API_AUTOMATIC)` returns for an unsupported
backend (`PP_ERROR_OPEN_FAILED`). -/
theorem ppInitialize_loader_failure_same_as_unsupported :
    ((failingNative (-1)).call
      ⟨Lib.cuew, "Init", [Arg.int ((sampleHeader.CUEW_INIT_CUDA ||| sampleHeader.CUEW_INIT_NVRTC
        : Nat) : Int)]⟩ (stateWith Api.API_HIP).world).1 = -1 ∧
    (ppInitialize sampleHeader (failingNative (-1)) Api.API_CUDA 0 (stateWith Api.API_HIP)).1 = -1 ∧
    (ppInitialize sampleHeader (failingNative (-1)) Api.API_AUTOMATIC 0
      (stateWith Api.API_HIP)).1 = -1 ∧
    sampleHeader.PP_ERROR_OPEN_FAILED = -1 :=
  ⟨rfl, rfl, rfl, rfl⟩

/-- C17 (amended): `ppInitialize` returns `PP_ERROR_OPEN_FAILED` for an unsupported backend
value and the loader's own status, unchanged, for a supported one (`cuewInit` under CUDA,
`hipewInit` under HIP); so the status returned after a loader failure differs from the one
for an unsupported backend exactly when the loader's status is not numerically
`PP_ERROR_OPEN_FAILED`. -/
theorem ppInitialize_failure_distinct_iff (k : Header) (N : Native W PA) (flags flags2 : Nat)
    (api : Api) (s t : PopState W) (hc : api ≠ Api.API_CUDA) (hh : api ≠ Api.API_HIP) :
    (ppInitialize k N api flags2 t).1 = k.PP_ERROR_OPEN_FAILED ∧
    (ppInitialize k N Api.API_CUDA flags s).1 =
      (N.call ⟨Lib.cuew, "Init",
        [Arg.int ((k.CUEW_INIT_CUDA ||| k.CUEW_INIT_NVRTC : Nat) : Int)]⟩ s.world).1 ∧
    (ppInitialize k N Api.API_HIP flags s).1 =
      (N.call ⟨Lib.hipew, "Init", [Arg.int (k.HIPEW_INIT_HIP : Int)]⟩ s.world).1 ∧
    ((ppInitialize k N Api.API_CUDA flags s).1 ≠ (ppInitialize k N api flags2 t).1 ↔
      (N.call ⟨Lib.cuew, "Init",
        [Arg.int ((k.CUEW_INIT_CUDA ||| k.CUEW_INIT_NVRTC : Nat) : Int)]⟩ s.world).1 ≠
        k.PP_ERROR_OPEN_FAILED) ∧
    ((ppInitialize k N Api.API_HIP flags s).1 ≠ (ppInitialize k N api flags2 t).1 ↔
      (N.call ⟨Lib.hipew, "Init", [Arg.int (k.HIPEW_INIT_HIP : Int)]⟩ s.world).1 ≠
        k.PP_ERROR_OPEN_FAILED) := by
  have hu : (ppInitialize k N api flags2 t).1 = k.PP_ERROR_OPEN_FAILED := by
    simp [ppInitialize, hc, hh]
  refine ⟨hu, rfl, rfl, ?_, ?_⟩
  · rw [hu]
    exact Iff.rfl
  · rw [hu]
    exact Iff.rfl

/-- A loader that fails with status -2 makes `ppInitialize` return -2 under CUDA and under
HIP, which is told apart from the unsupported backend (-1). -/
theorem ppInitialize_failure_distinct_iff_witness :
    Api.API_AUTOMATIC ≠ Api.API_CUDA ∧ Api.API_AUTOMATIC ≠ Api.API_HIP ∧
    (ppInitialize sampleHeader (failingNative (-2)) Api.API_AUTOMATIC 0
      (stateWith Api.API_HIP)).1 = -1 ∧
    (ppInitialize sampleHeader (failingNative (-2)) Api.API_CUDA 0 (stateWith Api.API_HIP)).1 = -2 ∧
    (ppInitialize sampleHeader (failingNative (-2)) Api.API_HIP 0 (stateWith Api.API_HIP)).1 = -2 ∧
    (ppInitialize sampleHeader (failingNative (-2)) Api.API_CUDA 0 (stateWith Api.API_HIP)).1 ≠
      (ppInitialize sampleHeader (failingNative (-2)) Api.API_AUTOMATIC 0
        (stateWith Api.API_HIP)).1 :=
  have h := ppInitialize_failure_distinct_iff sampleHeader (failingNative (-2)) 0 0
    Api.API_AUTOMATIC (stateWith Api.API_HIP) (stateWith Api.API_HIP) (by decide) (by decide)
  ⟨by decide, by decide, h.1, h.2.1, h.2.2.1, h.2.2.2.1.mpr (by decide)⟩

/-- A symbol defined among some fragments is defined among more of them. -/
theorem definedIn_append (x : String) (a b : List Fragment) :
    definedIn x (a ++ b) = (definedIn x a || definedIn x b) := by
  simp [definedIn, List.any_append]

/-- A fragment resolved against some fragments is resolved when others are put in front. -/
theorem resolvedAgainst_append_left (pre avail : List Fragment) (f : Fragment)
    (h : resolvedAgainst avail f = true) : resolvedAgainst (pre ++ avail) f = true := by
  unfold resolvedAgainst at h ⊢
  rw [List.all_eq_true] at h ⊢
  intro x hx
  rw [definedIn_append, h x hx, Bool.or_true]

/-- Fragments in dependency order are resolved by the linker of every backend, whatever
was added before them. -/
theorem linkResolves_of_inDependencyOrder (L : NativeLinker) (fs earlier : List Fragment)
    (h : inDependencyOrder fs = true) : linkResolves L earlier fs = true := by
  induction fs generalizing earlier with
  | nil => rfl
  | cons f later ih =>
    simp only [inDependencyOrder, Bool.and_eq_true] at h
    simp only [linkResolves, Bool.and_eq_true]
    refine ⟨?_, ih (earlier ++ [f]) h.2⟩
    by_cases hL : L.resolvesEarlier = true
    · rw [if_pos hL]
      exact resolvedAgainst_append_left earlier (f :: later) f h.1
    · rw [if_neg hL]
      exact h.1

/-- Fragments in dependency order leave no call unresolved in the list they are part of. -/
theorem all_resolved_of_inDependencyOrder (fs pre : List Fragment)
    (h : inDependencyOrder fs = true) :
    fs.all (fun f => resolvedAgainst (pre ++ fs) f) = true := by
  induction fs generalizing pre with
  | nil => rfl
  | cons f later ih =>
    simp only [inDependencyOrder, Bool.and_eq_true] at h
    simp only [List.all_cons, Bool.and_eq_true]
    refine ⟨resolvedAgainst_append_left pre (f :: later) f h.1, ?_⟩
    have := ih (pre ++ [f]) h.2
    simpa [List.append_assoc] using this

/-- An image made of fragments in dependency order is loadable. -/
theorem loadable_of_inDependencyOrder (fs : List Fragment) (h : inDependencyOrder fs = true) :
    Image.loadable { parts := fs } = true := by
  have := all_resolved_of_inDependencyOrder fs [] h
  simpa [Image.loadable] using this

/-- The symbols of an image are the symbols defined among its fragments. -/
theorem symbols_contains_iff (fs : List Fragment) (x : String) :
    (Image.symbols { parts := fs }).contains x = definedIn x fs := by
  induction fs with
  | nil => rfl
  | cons f rest ih =>
    have h1 : Image.symbols { parts := f :: rest } =
        f.defines ++ Image.symbols { parts := rest } := by
      simp [Image.symbols]
    have h2 : definedIn x (f :: rest) = (f.defines.contains x || definedIn x rest) := by
      simp [definedIn]
    rw [h1, h2, ← ih]
    simp [List.contains_iff_exists_mem_beq, List.elem_eq_mem, Bool.decide_or]

/-! ## Link session -/

/-- C18: in the link session of the specification, `create`, then `addData` of two fragments
that are valid for the backend and in dependency order, then `complete`, succeed at every
step; the session then holds exactly the two fragments in the order they were added, and
`complete` yields a non-null binary of non-zero size, the one image synthesized from both
fragments in that order (its bytes are theirs, in order, its size the sum of their
lengths), and moves the session to `completed`; the image is loadable and the lookup by
name of every entry point that one of the fragments defines succeeds. -/
theorem link_two_fragments_then_complete (k : Header) (L : NativeLinker)
    (options o1 o2 : List (Int × Int)) (n1 n2 : Option String) (f1 f2 : Fragment)
    (entry : String)
    (hv1 : L.valid f1 = true) (hv2 : L.valid f2 = true)
    (hdep : inDependencyOrder [f1, f2] = true)
    (hentry : definedIn entry [f1, f2] = true) :
    (linkCreate k options).1 = k.PPRTC_SUCCESS ∧
    (linkAddData k L (linkCreate k options).2 f1 n1 o1).1 = k.PPRTC_SUCCESS ∧
    (linkAddData k L (linkAddData k L (linkCreate k options).2 f1 n1 o1).2 f2 n2 o2).1 =
      k.PPRTC_SUCCESS ∧
    (linkAddData k L (linkAddData k L (linkCreate k options).2 f1 n1 o1).2 f2 n2 o2).2.fragments =
      [f1, f2] ∧
    (linkComplete k L
      (linkAddData k L (linkAddData k L (linkCreate k options).2 f1 n1 o1).2 f2 n2 o2).2).1 =
      (k.PPRTC_SUCCESS, some { parts := [f1, f2] }, f1.length + f2.length) ∧
    (linkComplete k L
      (linkAddData k L (linkAddData k L (linkCreate k options).2 f1 n1 o1).2 f2 n2 o2).2).1.2.2
      ≠ 0 ∧
    (linkComplete k L
      (linkAddData k L (linkAddData k L (linkCreate k options).2 f1 n1 o1).2 f2 n2 o2).2).2.phase =
      LinkPhase.completed ∧
    Image.bytes { parts := [f1, f2] } = f1.bytes ++ f2.bytes ∧
    ((linkComplete k L
      (linkAddData k L (linkAddData k L (linkCreate k options).2 f1 n1 o1).2 f2 n2 o2).2).1.2.1.map
        Image.loadable) = some true ∧
    ((linkComplete k L
      (linkAddData k L (linkAddData k L (linkCreate k options).2 f1 n1 o1).2 f2 n2 o2).2).1.2.1.bind
        (fun img => img.getFunction entry)).isSome = true := by
  have hw1 : f1.length = f1.bytes.length ∧ 0 < f1.length := by
    have h := hv1
    simp only [NativeLinker.valid, Fragment.wellFormed, Bool.and_eq_true, beq_iff_eq,
      decide_eq_true_eq] at h
    exact h.2
  have hw2 : f2.length = f2.bytes.length ∧ 0 < f2.length := by
    have h := hv2
    simp only [NativeLinker.valid, Fragment.wellFormed, Bool.and_eq_true, beq_iff_eq,
      decide_eq_true_eq] at h
    exact h.2
  have e1 : linkAddData k L (linkCreate k options).2 f1 n1 o1 =
      (k.PPRTC_SUCCESS,
        { phase := LinkPhase.accepting, options := options, fragments := [f1] }) := by
    simp [linkAddData, linkCreate, hv1]
  have e2 : linkAddData k L (linkAddData k L (linkCreate k options).2 f1 n1 o1).2 f2 n2 o2 =
      (k.PPRTC_SUCCESS,
        { phase := LinkPhase.accepting, options := options, fragments := [f1, f2] }) := by
    rw [e1]
    simp [linkAddData, hv2]
  have hbytes : Image.bytes { parts := [f1, f2] } = f1.bytes ++ f2.bytes := by
    simp [Image.bytes]
  have hsize : (Image.bytes { parts := [f1, f2] }).length = f1.length + f2.length := by
    rw [hbytes, List.length_append, hw1.1, hw2.1]
  have e3 : linkComplete k L
      (linkAddData k L (linkAddData k L (linkCreate k options).2 f1 n1 o1).2 f2 n2 o2).2 =
      ((k.PPRTC_SUCCESS, some { parts := [f1, f2] }, f1.length + f2.length),
        { phase := LinkPhase.completed, options := options, fragments := [f1, f2] }) := by
    rw [e2]
    simp only [linkComplete, if_true, linkResolves_of_inDependencyOrder L [f1, f2] [] hdep, hsize]
  have hload : Image.loadable { parts := [f1, f2] } = true :=
    loadable_of_inDependencyOrder [f1, f2] hdep
  have hsym : (Image.symbols { parts := [f1, f2] }).contains entry = true := by
    rw [symbols_contains_iff]
    exact hentry
  refine ⟨rfl, ?_, ?_, ?_, ?_, ?_, ?_, hbytes, ?_, ?_⟩
  · rw [e1]
  · rw [e2]
  · rw [e2]
  · rw [e3]
  · rw [e3]
    have := hw1.2
    show f1.length + f2.length ≠ 0
    omega
  · rw [e3]
  · rw [e3]
    simp [hload]
  · rw [e3]
    have hs : entry ∈ Image.symbols { parts := [f1, f2] } := by
      simpa using hsym
    simp [Image.getFunction, hload, hs]

/-- With the sample linker, the kernel fragment and then the function fragment it calls
link into the seven-byte image made of both, in that order, in which `testKernel` is found. -/
theorem link_two_fragments_then_complete_witness :
    sampleLinker.valid sampleKernel = true ∧ sampleLinker.valid sampleFunc = true ∧
    inDependencyOrder [sampleKernel, sampleFunc] = true ∧
    definedIn "testKernel" [sampleKernel, sampleFunc] = true ∧
    (linkComplete sampleHeader sampleLinker
      (linkAddData sampleHeader sampleLinker
        (linkAddData sampleHeader sampleLinker (linkCreate sampleHeader []).2 sampleKernel
          none []).2
        sampleFunc none []).2).1 = (0, some { parts := [sampleKernel, sampleFunc] }, 7) ∧
    Image.bytes { parts := [sampleKernel, sampleFunc] } = [66, 67, 2, 3, 66, 67, 1] ∧
    ((linkComplete sampleHeader sampleLinker
      (linkAddData sampleHeader sampleLinker
        (linkAddData sampleHeader sampleLinker (linkCreate sampleHeader []).2 sampleKernel
          none []).2
        sampleFunc none []).2).1.2.1.bind (fun img => img.getFunction "testKernel")).isSome =
      true :=
  have h := link_two_fragments_then_complete sampleHeader sampleLinker [] [] [] none none
    sampleKernel sampleFunc "testKernel" (by decide) (by decide) (by decide) (by decide)
  ⟨by decide, by decide, by decide, by decide, h.2.2.2.2.1, h.2.2.2.2.2.2.2.1,
    h.2.2.2.2.2.2.2.2.2⟩


/-! ## Device properties without CUDA -/

/-- C19: whenever the selection is not CUDA, be it HIP or an unsupported value,
`ppGetDeviceProperties` makes the one call `hipGetDeviceProperties` on the caller's record,
taken as the HIP structure, and returns its status and the record it left; no selection
leads to `ppErrorUnknown` without a native call. -/
theorem ppGetDeviceProperties_not_cuda_is_hip (k : Header) (N : Native W PA)
    (props : ppDeviceProp) (deviceId : Int) (s : PopState W) (h : s.s_api ≠ Api.API_CUDA) :
    ppGetDeviceProperties k N props deviceId s =
      ((N.hipGetDeviceProperties props deviceId s.world).1,
        { s with
          world := (N.hipGetDeviceProperties props deviceId s.world).2,
          trace := s.trace ++ [⟨⟨Lib.hip, "GetDeviceProperties", [Arg.int deviceId]⟩,
            (N.hipGetDeviceProperties props deviceId s.world).1.1⟩] }) := by
  simp [ppGetDeviceProperties, h, hip2pp, ints]

/-- With the unsupported value `other 7` selected, the sample native side is asked through
`hipGetDeviceProperties` and its status 0 is returned. -/
theorem ppGetDeviceProperties_not_cuda_is_hip_witness :
    (stateWith (Api.other 7)).s_api ≠ Api.API_CUDA ∧
    (ppGetDeviceProperties sampleHeader sampleNative zeroProp 0 (stateWith (Api.other 7))).1.1 = 0 ∧
    (ppGetDeviceProperties sampleHeader sampleNative zeroProp 0
      (stateWith (Api.other 7))).2.trace =
      [⟨⟨Lib.hip, "GetDeviceProperties", [Arg.int 0]⟩, 0⟩] :=
  have h := ppGetDeviceProperties_not_cuda_is_hip sampleHeader sampleNative zeroProp 0
    (stateWith (Api.other 7)) (by decide)
  ⟨by decide, by rw [h]; rfl, by rw [h]; rfl⟩

/-! ## Frame of the CUDA property copy -/

/-- C20: under CUDA, for every native status other than `CUDA_SUCCESS`, whatever its value,
`ppGetDeviceProperties` returns `ppErrorUnknown` and the caller's record is the one passed
in; on success the string of `gcnArchName` is empty and every field other than `name`,
`gcnArchName`, `totalGlobalMem`, `maxThreadsDim`, `maxGridSize` and `maxThreadsPerBlock`
(`major`, `multiProcessorCount` and the rest of the record) keeps its value. -/
theorem ppGetDeviceProperties_cuda_frame (k : Header) (N : Native W PA) (props : ppDeviceProp)
    (deviceId : Int) (s : PopState W) (hc : s.s_api = Api.API_CUDA) :
    ((N.cudaGetDeviceProperties deviceId s.world).1.1 ≠ k.CUDA_SUCCESS →
      (ppGetDeviceProperties k N props deviceId s).1 = (k.ppErrorUnknown, props)) ∧
    ((N.cudaGetDeviceProperties deviceId s.world).1.1 = k.CUDA_SUCCESS →
      (ppGetDeviceProperties k N props deviceId s).1.1 = k.ppSuccess ∧
      cstr (ppGetDeviceProperties k N props deviceId s).1.2.gcnArchName = [] ∧
      (ppGetDeviceProperties k N props deviceId s).1.2.major = props.major ∧
      (ppGetDeviceProperties k N props deviceId s).1.2.multiProcessorCount =
        props.multiProcessorCount ∧
      (ppGetDeviceProperties k N props deviceId s).1.2.others = props.others ∧
      (ppGetDeviceProperties k N props deviceId s).1.2 =
        { props with
          name := (ppGetDeviceProperties k N props deviceId s).1.2.name,
          gcnArchName := (ppGetDeviceProperties k N props deviceId s).1.2.gcnArchName,
          totalGlobalMem := (ppGetDeviceProperties k N props deviceId s).1.2.totalGlobalMem,
          maxThreadsDim := (ppGetDeviceProperties k N props deviceId s).1.2.maxThreadsDim,
          maxGridSize := (ppGetDeviceProperties k N props deviceId s).1.2.maxGridSize,
          maxThreadsPerBlock :=
            (ppGetDeviceProperties k N props deviceId s).1.2.maxThreadsPerBlock }) := by
  constructor
  · intro he
    simp [ppGetDeviceProperties, hc, he]
  · intro he
    simp [ppGetDeviceProperties, hc, he, strcpy, cstr]

/-- On a native side failing with status 3, a record with `major = 8` and 60
multiprocessors comes back as it was, with result `ppErrorUnknown` (999). -/
theorem ppGetDeviceProperties_cuda_frame_witness :
    (stateWith Api.API_CUDA).s_api = Api.API_CUDA ∧
    ((failingNative 3).cudaGetDeviceProperties 0 (stateWith Api.API_CUDA).world).1.1 ≠
      sampleHeader.CUDA_SUCCESS ∧
    (ppGetDeviceProperties sampleHeader (failingNative 3)
      { zeroProp with major := 8, multiProcessorCount := 60 } 0 (stateWith Api.API_CUDA)).1 =
      (999, { zeroProp with major := 8, multiProcessorCount := 60 }) :=
  ⟨rfl, by decide,
    (ppGetDeviceProperties_cuda_frame sampleHeader (failingNative 3)
      { zeroProp with major := 8, multiProcessorCount := 60 } 0 (stateWith Api.API_CUDA) rfl).1
      (by decide)⟩

/-! ## The template parameter of `ppInit` -/

/-- C21: the template parameter of `ppInit<API>` has no effect: for every `Flags` and every
state, the instances for `API_AUTOMATIC`, `API_CUDA` and `API_HIP` (and for any two values
of the parameter) give the same result and the same state, log of native calls included;
the call is `cuInit(Flags)` or `hipInit(Flags)` according to the selection `s_api` alone. -/
theorem ppInit_template_parameter_unused (k : Header) (N : Native W PA) (Flags : Int)
    (s : PopState W) :
    (∀ API1 API2 : Api, ppInit k N API1 Flags s = ppInit k N API2 Flags s) ∧
    ppInit k N Api.API_AUTOMATIC Flags s = ppInit k N Api.API_CUDA Flags s ∧
    ppInit k N Api.API_CUDA Flags s = ppInit k N Api.API_HIP Flags s ∧
    (∀ API : Api, ppInit k N API Flags s =
      if s.s_api = Api.API_CUDA then callNative N ⟨Lib.cu, "Init", [Arg.int Flags]⟩ s
      else if s.s_api = Api.API_HIP then callNative N ⟨Lib.hip, "Init", [Arg.int Flags]⟩ s
      else (k.ppErrorUnknown, s)) := by
  refine ⟨fun _ _ => rfl, rfl, rfl, ?_⟩
  intro API
  by_cases hc : s.s_api = Api.API_CUDA
  · simp [ppInit, __PP_FUNC, cu2pp, ints, hc]
  · by_cases hh : s.s_api = Api.API_HIP
    · simp [ppInit, __PP_FUNC, hip2pp, ints, hh]
    · simp [ppInit, __PP_FUNC, ret, hc, hh]

/-! ## The selection before initialisation -/

/-- Under HIP each of the two hand-written operations is one logged call into the HIP
library. -/
theorem run_handwritten_hip (k : Header) (N : Native W PA) (op : Op PA) (s : PopState W)
    (hop : op.isHandWritten = true) (h : s.s_api = Api.API_HIP) :
    ∃ c : NativeCall, c.lib = Lib.hip ∧
      (op.run k N s).2.trace = s.trace ++ [⟨c, (op.run k N s).1⟩] := by
  have hc : s.s_api ≠ Api.API_CUDA := by
    rw [h]
    decide
  cases op <;> simp [Op.isHandWritten] at hop
  · rename_i props deviceId
    refine ⟨⟨Lib.hip, "GetDeviceProperties", ints [deviceId]⟩, rfl, ?_⟩
    simp [Op.run, resultOnly, ppGetDeviceProperties, hc, hip2pp]
  · rename_i attr dptr
    refine ⟨⟨Lib.hip, "PointerGetAttributes", ints [dptr]⟩, rfl, ?_⟩
    simp [Op.run, resultOnly, ppPointerGetAttributes, h, hip2pp]

/-- C22: before any `ppInitialize` the selection is HIP: in the initial state `ppGetCurAPI`
returns `API_HIP` for any flags, and every operation that dispatches at all (every one that
is not a stub) takes its HIP branch, making exactly one native call, into a HIP-side
library and none into a CUDA-side one. -/
theorem initial_selection_is_hip (k : Header) (N : Native W PA) (w : W) :
    (∀ flags : Nat, (ppGetCurAPI flags (initialState w)).1 = Api.API_HIP) ∧
    (∀ op : Op PA, op.isStub = false →
      ∃ c : NativeCall, c.lib.isHip = true ∧ c.lib.isCuda = false ∧
        (op.run k N (initialState w)).2.trace = [⟨c, (op.run k N (initialState w)).1⟩]) := by
  refine ⟨fun _ => rfl, ?_⟩
  intro op hstub
  rcases op.trichotomy with h | h | h
  · rw [h] at hstub
    exact absurd hstub (by decide)
  · obtain ⟨c, hl, ht⟩ := run_handwritten_hip k N op (initialState w) h rfl
    refine ⟨c, ?_, ?_, ?_⟩
    · rw [hl]
      rfl
    · rw [hl]
      rfl
    · rw [ht]
      rfl
  · obtain ⟨c, h1, h2, hr⟩ := run_forwards_hip k N op (initialState w) h rfl
    refine ⟨c, h1, h2, ?_⟩
    rw [hr]
    rfl

/-- In the initial state over the sample native side, `ppGetDeviceCount` is not a stub and
makes one HIP-side call. -/
theorem initial_selection_is_hip_witness :
    (Op.ppGetDeviceCount 4096 : Op Int).isStub = false ∧
    ∃ c : NativeCall, c.lib.isHip = true ∧ c.lib.isCuda = false ∧
      ((Op.ppGetDeviceCount 4096 : Op Int).run sampleHeader sampleNative (initialState 0)).2.trace =
        [⟨c, ((Op.ppGetDeviceCount 4096 : Op Int).run sampleHeader sampleNative
          (initialState 0)).1⟩] :=
  ⟨rfl, (initial_selection_is_hip sampleHeader sampleNative 0).2 (Op.ppGetDeviceCount 4096) rfl⟩

/-! ## Ignored flags -/

/-- C23: the flags of `ppInitialize` and `ppGetCurAPI` are ignored: for every `api` and any
two flag values the two `ppInitialize` calls return the same status and leave the same
state (same selection, same loader call), the loader being called with the fixed flags
`CUEW_INIT_CUDA | CUEW_INIT_NVRTC` under CUDA and `HIPEW_INIT_HIP` under HIP whatever the
caller's flags, and `ppGetCurAPI` returns the same value for both. -/
theorem flags_are_ignored (k : Header) (N : Native W PA) (api : Api) (f1 f2 : Nat)
    (s : PopState W) :
    ppInitialize k N api f1 s = ppInitialize k N api f2 s ∧
    (ppInitialize k N api f1 s).2.s_api = (ppInitialize k N api f2 s).2.s_api ∧
    (ppInitialize k N Api.API_CUDA f1 s).2.trace =
      s.trace ++ [⟨⟨Lib.cuew, "Init",
        [Arg.int ((k.CUEW_INIT_CUDA ||| k.CUEW_INIT_NVRTC : Nat) : Int)]⟩,
        (ppInitialize k N Api.API_CUDA f2 s).1⟩] ∧
    (ppInitialize k N Api.API_HIP f1 s).2.trace =
      s.trace ++ [⟨⟨Lib.hipew, "Init", [Arg.int (k.HIPEW_INIT_HIP : Int)]⟩,
        (ppInitialize k N Api.API_HIP f2 s).1⟩] ∧
    (ppGetCurAPI f1 s : Api × PopState W) = ppGetCurAPI f2 s :=
  ⟨rfl, rfl, rfl, rfl, rfl⟩

/-! ## Byte fill -/

/-- C24: for every value `ui` (every unsigned 32-bit one in particular) and every count `n`,
`ppMemset` under CUDA is the call `cuMemsetD8(dstDevice, ui mod 256, n)`, an 8-bit fill of
`n` bytes, and under HIP the call `hipMemset(dstDevice, ui, n)` with `ui` and `n` unchanged;
with `ui = 0` both are a zero fill of `n` bytes. -/
theorem ppMemset_byte_fill (k : Header) (N : Native W PA) (dstDevice : Int) (ui : Nat)
    (n : Int) (s : PopState W) :
    (s.s_api = Api.API_CUDA →
      ppMemset k N dstDevice ui n s =
        callNative N ⟨Lib.cu, "MemsetD8",
          [Arg.int dstDevice, Arg.int ((ui % 256 : Nat) : Int), Arg.int n]⟩ s ∧
      ppMemset k N dstDevice 0 n s =
        callNative N ⟨Lib.cu, "MemsetD8", [Arg.int dstDevice, Arg.int 0, Arg.int n]⟩ s) ∧
    (s.s_api = Api.API_HIP →
      ppMemset k N dstDevice ui n s =
        callNative N ⟨Lib.hip, "Memset",
          [Arg.int dstDevice, Arg.int (ui : Int), Arg.int n]⟩ s ∧
      ppMemset k N dstDevice 0 n s =
        callNative N ⟨Lib.hip, "Memset", [Arg.int dstDevice, Arg.int 0, Arg.int n]⟩ s) := by
  constructor
  · intro h
    simp [ppMemset, __PP_FUNC1, cu2pp, ints, h]
  · intro h
    have hc : s.s_api ≠ Api.API_CUDA := by
      rw [h]
      decide
    simp [ppMemset, __PP_FUNC1, hip2pp, ints, h]

/-- On the sample native side under CUDA, `ppMemset(4096, 0x1234ABCD, 4)` asks
`cuMemsetD8` for the byte 0xCD (205). -/
theorem ppMemset_byte_fill_witness :
    (stateWith Api.API_CUDA).s_api = Api.API_CUDA ∧
    (ppMemset sampleHeader sampleNative 4096 305441741 4 (stateWith Api.API_CUDA)).2.trace =
      [⟨⟨Lib.cu, "MemsetD8", [Arg.int 4096, Arg.int 205, Arg.int 4]⟩, 0⟩] :=
  have h := ((ppMemset_byte_fill sampleHeader sampleNative 4096 305441741 4
    (stateWith Api.API_CUDA)).1 rfl).1
  ⟨rfl, by rw [h]; rfl⟩

/-! ## Runtime compilation with an unsupported selection -/

/-- C25: when the selection is neither CUDA nor HIP, `pprtcCreateProgram`,
`pprtcCompileProgram`, `pprtcDestroyProgram`, `pprtcGetProgramLog`, `pprtcGetProgramLogSize`,
`pprtcGetCode` and `pprtcGetCodeSize` return `PPRTC_ERROR_INTERNAL_ERROR` and leave the state
as it was (no native call is made); `pprtcGetErrorString` does so for every selection and
every argument. -/
theorem pprtc_unsupported_selection_internal_error (k : Header) (N : Native W PA)
    (s : PopState W) :
    (s.s_api ≠ Api.API_CUDA → s.s_api ≠ Api.API_HIP →
      (∀ prog src name numHeaders headers includeNames : Int,
        pprtcCreateProgram k N prog src name numHeaders headers includeNames s =
          (k.PPRTC_ERROR_INTERNAL_ERROR, s)) ∧
      (∀ prog numOptions options : Int,
        pprtcCompileProgram k N prog numOptions options s = (k.PPRTC_ERROR_INTERNAL_ERROR, s)) ∧
      (∀ prog : Int, pprtcDestroyProgram k N prog s = (k.PPRTC_ERROR_INTERNAL_ERROR, s)) ∧
      (∀ prog log : Int, pprtcGetProgramLog k N prog log s = (k.PPRTC_ERROR_INTERNAL_ERROR, s)) ∧
      (∀ prog logSizeRet : Int,
        pprtcGetProgramLogSize k N prog logSizeRet s = (k.PPRTC_ERROR_INTERNAL_ERROR, s)) ∧
      (∀ prog code : Int, pprtcGetCode k N prog code s = (k.PPRTC_ERROR_INTERNAL_ERROR, s)) ∧
      (∀ prog codeSizeRet : Int,
        pprtcGetCodeSize k N prog codeSizeRet s = (k.PPRTC_ERROR_INTERNAL_ERROR, s))) ∧
    (∀ result : Int, pprtcGetErrorString k result s = (k.PPRTC_ERROR_INTERNAL_ERROR, s)) := by
  refine ⟨?_, fun _ => rfl⟩
  intro hc hh
  refine ⟨?_, ?_, ?_, ?_, ?_, ?_, ?_⟩ <;> intros <;>
    simp [pprtcCreateProgram, pprtcCompileProgram, pprtcDestroyProgram, pprtcGetProgramLog,
      pprtcGetProgramLogSize, pprtcGetCode, pprtcGetCodeSize, __PPRTC_FUNC1, ret, hc, hh]

/-- With `API_AUTOMATIC` selected, `pprtcCompileProgram` on the sample native side returns
`PPRTC_ERROR_INTERNAL_ERROR` (11) and the log stays empty. -/
theorem pprtc_unsupported_selection_internal_error_witness :
    (stateWith Api.API_AUTOMATIC).s_api ≠ Api.API_CUDA ∧
    (stateWith Api.API_AUTOMATIC).s_api ≠ Api.API_HIP ∧
    pprtcCompileProgram sampleHeader sampleNative 5 0 0 (stateWith Api.API_AUTOMATIC) =
      (11, stateWith Api.API_AUTOMATIC) :=
  ⟨by decide, by decide,
    ((pprtc_unsupported_selection_internal_error sampleHeader sampleNative
      (stateWith Api.API_AUTOMATIC)).1 (by decide) (by decide)).2.1 5 0 0⟩


end Pop
